import Mathlib

/-
  Verification development for the ray-optics core of `lightbox.py`
  (the "Hodson Light Box" simulation).

  Modelling conventions:
  * Python floats are idealised as real numbers (`ℝ`); `math.sqrt` is
    `Real.sqrt`.  Decimal literals such as `0.1` denote the exact
    rationals they print as.
  * Python methods that mutate `self` become functions returning the
    updated value.  `Game.trace` / `Game.trace_color` append spawned
    rays to `self.rays`; here each call returns the final state of its
    argument ray together with the list of rays appended during the
    call, in append order.
  * The recursion of `trace`/`trace_color` through spawned sibling rays
    is expressed with an explicit recursion budget; the development
    proves that any budget of at least 11 yields the same result, which
    is the termination argument of the source (spawned rays carry
    `bounces + 1` and tracing stops at the bounce cap 10).
  * Module-level mutable globals read by the tracer (`GLASS`, the item
    list `self.items`) are passed explicitly in an `Env` record; `AIR`
    is never mutated and stays a constant.
-/

open scoped Classical

noncomputable section

/-! ### Vector2 (lines 97-116) -/

structure Vec where
  x : ℝ
  y : ℝ

def Vec.add (a b : Vec) : Vec := ⟨a.x + b.x, a.y + b.y⟩

def Vec.sub (a b : Vec) : Vec := ⟨a.x - b.x, a.y - b.y⟩

def Vec.smul (a : Vec) (s : ℝ) : Vec := ⟨a.x * s, a.y * s⟩

def Vec.dot (a b : Vec) : ℝ := a.x * b.x + a.y * b.y

def Vec.length (a : Vec) : ℝ := Real.sqrt (a.x ^ 2 + a.y ^ 2)

def Vec.normalize (a : Vec) : Vec :=
  let l := a.length
  if l > 0 then ⟨a.x / l, a.y / l⟩ else ⟨0, 0⟩

def Vec.neg (a : Vec) : Vec := ⟨-a.x, -a.y⟩

/-! ### Colors (lines 30-37): RGB triples of integers -/

abbrev Color := ℤ × ℤ × ℤ

def WHITE : Color := (255, 255, 255)
def RED : Color := (255, 80, 80)
def GREEN : Color := (80, 255, 120)
def ORANGE : Color := (255, 140, 0)
def YELLOW : Color := (255, 255, 100)
def BLUE : Color := (80, 150, 255)
def VIOLET : Color := (180, 100, 255)

/-! ### Constants -/

def MAX_RAY_DISTANCE : ℝ := 6000

/-! ### Material (lines 59-86) -/

structure Material where
  ior_red : ℝ
  ior_orange : ℝ
  ior_yellow : ℝ
  ior_green : ℝ
  ior_blue : ℝ
  ior_violet : ℝ

/-- `Material.get_ior` (lines 68-74): dictionary lookup with default 1.0. -/
def Material.get_ior (m : Material) (wavelength : String) : ℝ :=
  if wavelength = "red" then m.ior_red
  else if wavelength = "orange" then m.ior_orange
  else if wavelength = "yellow" then m.ior_yellow
  else if wavelength = "green" then m.ior_green
  else if wavelength = "blue" then m.ior_blue
  else if wavelength = "violet" then m.ior_violet
  else if wavelength = "white" then (m.ior_red + m.ior_violet) / 2
  else 1.0

/-- `Material.set_base_ior` (lines 76-83). -/
def Material.set_base_ior (_m : Material) (base : ℝ) : Material :=
  { ior_red := base
    ior_orange := base + 0.025
    ior_yellow := base + 0.050
    ior_green := base + 0.075
    ior_blue := base + 0.100
    ior_violet := base + 0.125 }

def AIR : Material := ⟨1.000, 1.000, 1.000, 1.000, 1.000, 1.000⟩
def GLASS : Material := ⟨1.500, 1.525, 1.550, 1.575, 1.600, 1.625⟩

/-- `SPECTRUM` (lines 88-95). -/
def SPECTRUM : List (String × Color × ℝ) :=
  [("red", RED, 1.50), ("orange", ORANGE, 1.515), ("yellow", YELLOW, 1.530),
   ("green", GREEN, 1.545), ("blue", BLUE, 1.560), ("violet", VIOLET, 1.575)]

/-! ### ItemType (lines 51-57) -/

inductive ItemType where
  | PLANE_MIRROR
  | TRIANGLE
  | RECTANGLE
  | CURVED_MIRROR
  | CONCAVE_LENS
  | CONVEX_LENS
deriving DecidableEq

/-! ### Ray (lines 118-135) -/

structure Ray where
  origin : Vec
  direction : Vec
  color : Color
  wavelength : String
  is_white : Bool
  path : List (ℝ × ℝ)
  active : Bool
  bounces : ℕ
  material : Material
  intensity : ℝ
  distance_traveled : ℝ

instance : Inhabited Ray :=
  ⟨⟨⟨0, 0⟩, ⟨0, 0⟩, WHITE, "white", true, [], true, 0, AIR, 1, 0⟩⟩

/-- `Ray.__init__` (lines 119-130). -/
def mkRay (pos dir : Vec) (color : Color) (wave : String) (white : Bool)
    (intensity : ℝ) : Ray :=
  { origin := pos
    direction := dir.normalize
    color := color
    wavelength := wave
    is_white := white || decide (wave = "white")
    path := [(pos.x, pos.y)]
    active := true
    bounces := 0
    material := AIR
    intensity := intensity
    distance_traveled := 0 }

/-- `Ray.get_endpoint` (lines 132-135). -/
def Ray.get_endpoint (r : Ray) : Vec :=
  let remaining := max 0 (1.0 - r.distance_traveled / MAX_RAY_DISTANCE)
  let max_dist := MAX_RAY_DISTANCE * remaining
  r.origin.add (r.direction.smul (min 2000 max_dist))

/-! ### Item (lines 137-206): the tracer reads only `type`, `pos` and the
    derived boundary `shape` (via `get_segments`). -/

structure Item where
  type : ItemType
  pos : Vec
  shape : List Vec

/-- `Item.get_segments` (lines 205-206):
    `[(shape[i], shape[(i+1) % len(shape)]) for i in range(len(shape))]`. -/
def Item.get_segments (it : Item) : List (Vec × Vec) :=
  (List.range it.shape.length).map fun i =>
    (it.shape.getD i ⟨0, 0⟩, it.shape.getD ((i + 1) % it.shape.length) ⟨0, 0⟩)

/-! ### Physics (lines 383-438) -/

/-- `Physics.intersect` (lines 384-396). -/
def Physics.intersect (p1 p2 p3 p4 : Vec) : Option (Vec × ℝ) :=
  let d := (p1.x - p2.x) * (p3.y - p4.y) - (p1.y - p2.y) * (p3.x - p4.x)
  if |d| < 0.0001 then none
  else
    let t := ((p1.x - p3.x) * (p3.y - p4.y) - (p1.y - p3.y) * (p3.x - p4.x)) / d
    let u := -((p1.x - p2.x) * (p1.y - p3.y) - (p1.y - p2.y) * (p1.x - p3.x)) / d
    if 0 ≤ t ∧ t ≤ 1 ∧ 0 ≤ u ∧ u ≤ 1 then
      let pt : Vec := ⟨p1.x + t * (p2.x - p1.x), p1.y + t * (p2.y - p1.y)⟩
      some (pt, (pt.sub p1).length)
    else none

/-- `Physics.reflect` (lines 398-401). -/
def Physics.reflect (inc n : Vec) : Vec :=
  let i := inc.normalize
  let nn := n.normalize
  ((i.sub (nn.smul (2 * i.dot nn)))).normalize

/-- `Physics.refract` (lines 403-417). -/
def Physics.refract (inc normal : Vec) (n1 n2 : ℝ) : Option Vec :=
  let i := inc.normalize
  let n0 := normal.normalize
  let n := if n0.dot i > 0 then n0.neg else n0
  let ratio := n1 / n2
  let cos_i := -(n.dot i)
  let sin_t2 := ratio ^ 2 * (1 - cos_i ^ 2)
  if sin_t2 > 1 then none
  else
    let cos_t := Real.sqrt (1 - sin_t2)
    some (((i.smul ratio).add (n.smul (ratio * cos_i - cos_t))).normalize)

/-- `Physics.normal` (lines 419-423). -/
def Physics.normal (p1 p2 : Vec) : Vec :=
  let dx := p2.x - p1.x
  let dy := p2.y - p1.y
  let l := Real.sqrt (dx * dx + dy * dy)
  if l > 0 then ⟨-dy / l, dx / l⟩ else ⟨0, 1⟩

/-- `Physics.fresnel_reflectance` (lines 425-438): Schlick's approximation,
    forced to 1.0 for total internal reflection when `n1 > n2`. -/
def Physics.fresnel_reflectance (incident normal : Vec) (n1 n2 : ℝ) : ℝ :=
  let i := incident.normalize
  let n := normal.normalize
  let cos_i := -(n.dot i)
  if n1 > n2 ∧ (n1 / n2) ^ 2 * (1 - cos_i ^ 2) > 1.0 then 1.0
  else
    let r0 := ((n1 - n2) / (n1 + n2)) ^ 2
    r0 + (1 - r0) * (1 - cos_i) ^ 5

/-! ### Sensor (lines 310-357); the UI fields `pulse` and drawing are not
    modelled. -/

structure Sensor where
  pos : Vec
  radius : ℝ
  color : Color
  tol : ℤ
  active : Bool
  was_active : Bool
  is_white : Bool

/-- `Sensor.__init__` (lines 311-319): radius is the constant
    `SENSOR_RADIUS = 35`; `is_white` records whether the target color is
    `WHITE`. -/
def mkSensor (x y : ℝ) (color : Color) (tol : ℤ) : Sensor :=
  { pos := ⟨x, y⟩
    radius := 35
    color := color
    tol := tol
    active := false
    was_active := false
    is_white := decide (color = WHITE) }

/-- `Sensor.check_hit` (lines 321-337).  The source compares
    `(self.pos - closest).length() < self.radius`; `Vec.length` is the same
    `sqrt` the source computes. -/
def Sensor.check_hit (s : Sensor) (r : Ray) : Bool :=
  if r.path.length < 2 ∨ r.intensity < 0.2 then false
  else
    (List.range (r.path.length - 1)).any fun i =>
      let q1 := r.path.getD i (0, 0)
      let q2 := r.path.getD (i + 1) (0, 0)
      let p1 : Vec := ⟨q1.1, q1.2⟩
      let p2 : Vec := ⟨q2.1, q2.2⟩
      let line := p2.sub p1
      let len_sq := line.dot line
      if len_sq < 0.0001 then false
      else
        let t := max 0 (min 1 (((s.pos.sub p1).dot line) / len_sq))
        let closest := p1.add (line.smul t)
        decide ((s.pos.sub closest).length < s.radius)

/-- `Sensor.color_match` (lines 339-344). -/
def Sensor.color_match (s : Sensor) (r : Ray) : Bool :=
  if s.is_white then r.is_white
  else if r.is_white then false
  else
    decide (|r.color.1 - s.color.1| ≤ s.tol) &&
    decide (|r.color.2.1 - s.color.2.1| ≤ s.tol) &&
    decide (|r.color.2.2 - s.color.2.2| ≤ s.tol)

/-- `Sensor.update` (lines 346-357): stores the previous `active`, recomputes
    `active` as an OR over the rays, and returns the rising edge
    `active and not was_active`.  (The cosmetic `pulse` update is omitted.) -/
def Sensor.update (s : Sensor) (rays : List Ray) : Sensor × Bool :=
  let act := rays.any fun r =>
    decide (r.intensity ≥ 0.2) && s.check_hit r && s.color_match r
  let s2 := { s with was_active := s.active, active := act }
  (s2, act && !s2.was_active)

/-- `Game.get_intensity_at_distance` (lines 1007-1008). -/
def Game.get_intensity_at_distance (distance : ℝ) : ℝ :=
  max 0.0 (1.0 - distance / MAX_RAY_DISTANCE)

/-! ### The tracer (`Game.trace`, lines 1010-1176, and `Game.trace_color`,
    lines 1178-1289).

    Both routines share the same shape: a bounded loop that finds the
    nearest segment hit past a minimum-distance guard, then branches on
    the struck item's category.  Spawn sites append sibling rays to
    `self.rays` and recursively trace them; a spawn is recorded here as a
    `SpawnCall` carrying which routine traces the child and whether the
    append happens before (`pre = true`) or after the recursive call. -/

/-- Globals read by the tracer: `self.items` and the module-level `GLASS`
    material (mutable via `Shop.update_ior`).  `AIR` is never mutated. -/
structure Env where
  items : List Item
  glass : Material

/-- The best hit of the search loop (lines 1019-1034): distance, point,
    (flipped) normal and the struck item. -/
structure Best where
  dist : ℝ
  pt : Vec
  n : Vec
  item : Item

/-- One candidate segment of the search loop (lines 1024-1034): keep the hit
    if its distance is beyond the guard and strictly below the best so far
    (initially infinite); the normal is flipped to oppose the ray direction. -/
def considerSeg (guard : ℝ) (r : Ray) (it : Item) (acc : Option Best)
    (seg : Vec × Vec) : Option Best :=
  match Physics.intersect r.origin r.get_endpoint seg.1 seg.2 with
  | none => acc
  | some (pt, dist) =>
    if guard < dist ∧ (match acc with | none => True | some b => dist < b.dist) then
      let n0 := Physics.normal seg.1 seg.2
      let n := if n0.dot r.direction > 0 then n0.neg else n0
      some ⟨dist, pt, n, it⟩
    else acc

/-- The full search over every segment of every item (lines 1024-1034 /
    1192-1202); `trace` uses `guard = 0.1`, `trace_color` uses `1.0`. -/
def findHit (guard : ℝ) (r : Ray) (items : List Item) : Option Best :=
  items.foldl (fun acc it => it.get_segments.foldl (considerSeg guard r it) acc) none

inductive SpawnKind where
  | traceK
  | colorK

/-- A sibling ray spawned at a boundary: `kind` says whether `self.trace`
    or `self.trace_color` is invoked on it, `pre` whether the append to
    `self.rays` happens before the recursive call. -/
structure SpawnCall where
  kind : SpawnKind
  pre : Bool
  ray : Ray

/-- The outcome of one loop iteration: updated ray, spawned siblings in
    program order, and whether the loop continues. -/
structure StepOut where
  ray : Ray
  spawns : List SpawnCall
  cont : Bool

/-- Spawned-ray construction: `Ray(...)` followed by the assignments
    `distance_traveled = ...; bounces = ...` (e.g. lines 1064-1066). -/
def spawnRay (pos dir : Vec) (color : Color) (wave : String) (white : Bool)
    (intensity dist : ℝ) (b : ℕ) : Ray :=
  { mkRay pos dir color wave white intensity with
      distance_traveled := dist, bounces := b }

/-- Mirror branch (lines 1046-1048 / 1209-1211). -/
def mirrorHit (r1 : Ray) (n : Vec) : StepOut :=
  ⟨{ r1 with direction := Physics.reflect r1.direction n, bounces := r1.bounces + 1 },
   [], true⟩

/-- `trace`, triangle/rectangle branch (lines 1049-1098). -/
def traceRectHit (env : Env) (r1 : Ray) (pt n itemPos : Vec) : StepOut :=
  let entering := n.dot (itemPos.sub pt) < 0
  let n1 := if r1.is_white then r1.material.get_ior "white"
            else r1.material.get_ior r1.wavelength
  let n2 := if r1.is_white then env.glass.get_ior "white"
            else if entering then env.glass.get_ior r1.wavelength
            else AIR.get_ior r1.wavelength
  let R := Physics.fresnel_reflectance r1.direction n n1 n2
  let T := 1.0 - R
  let spawns1 : List SpawnCall :=
    if R > 0.01 ∧ r1.intensity * R > 0.01 then
      [⟨.traceK, true,
        spawnRay pt (Physics.reflect r1.direction n) r1.color r1.wavelength
          r1.is_white (r1.intensity * R) r1.distance_traveled (r1.bounces + 1)⟩]
    else []
  if T > 0.01 ∧ r1.intensity * T > 0.01 then
    if r1.is_white ∧ entering then
      -- spectral split (lines 1071-1084); children get `material = GLASS`
      -- and are traced by `trace_color` before being appended
      let kids : List SpawnCall := SPECTRUM.filterMap fun sp =>
        match Physics.refract r1.direction n (AIR.get_ior sp.1)
            (env.glass.get_ior sp.1) with
        | none => none
        | some nd => some ⟨SpawnKind.colorK, false,
            { spawnRay pt nd sp.2.1 sp.1 false (r1.intensity * T)
                r1.distance_traveled (r1.bounces + 1) with material := env.glass }⟩
      ⟨{ r1 with active := false }, spawns1 ++ kids, false⟩
    else
      let next_mat := if r1.material = AIR ∧ entering then env.glass else AIR
      match Physics.refract r1.direction n n1 n2 with
      | some nd =>
        ⟨{ r1 with
            direction := nd
            material := next_mat
            intensity := r1.intensity * T
            bounces := r1.bounces + 1 },
         spawns1, true⟩
      | none => ⟨{ r1 with active := false }, spawns1, false⟩
  else
    ⟨{ r1 with active := false }, spawns1, false⟩

/-- `trace`, lens branch (lines 1099-1162). -/
def traceLensHit (env : Env) (r1 : Ray) (pt n itemPos : Vec) : StepOut :=
  let entering := n.dot (itemPos.sub pt) < 0
  if r1.is_white ∧ entering then
    let n1 := AIR.get_ior "white"
    let n2 := env.glass.get_ior "white"
    let R := Physics.fresnel_reflectance r1.direction n n1 n2
    let T := 1.0 - R
    let spawns1 : List SpawnCall :=
      if R > 0.01 then
        [⟨.traceK, true,
          spawnRay pt (Physics.reflect r1.direction n) WHITE "white" true
            (r1.intensity * R) r1.distance_traveled (r1.bounces + 1)⟩]
      else []
    if T > 0.01 then
      let kids : List SpawnCall := SPECTRUM.filterMap fun sp =>
        match Physics.refract r1.direction n (AIR.get_ior sp.1)
            (env.glass.get_ior sp.1) with
        | none => none
        | some nd => some ⟨SpawnKind.colorK, false,
            { spawnRay pt nd sp.2.1 sp.1 false (r1.intensity * T)
                r1.distance_traveled (r1.bounces + 1) with material := env.glass }⟩
      ⟨{ r1 with active := false }, spawns1 ++ kids, false⟩
    else
      -- line 1129: `return` fires regardless, but `active` is only cleared
      -- when `T > 0.01`
      ⟨r1, spawns1, false⟩
  else
    -- lines 1131-1138: index selection, mutating `ray.material` in the
    -- second and third cases
    let sel : ℝ × ℝ × Material :=
      if r1.material = env.glass ∧ ¬entering then
        (env.glass.get_ior r1.wavelength, AIR.get_ior r1.wavelength, r1.material)
      else if entering then
        (AIR.get_ior r1.wavelength, env.glass.get_ior r1.wavelength, env.glass)
      else
        (env.glass.get_ior r1.wavelength, AIR.get_ior r1.wavelength, AIR)
    let n1 := sel.1
    let n2 := sel.2.1
    let r2 := { r1 with material := sel.2.2 }
    let R := Physics.fresnel_reflectance r2.direction n n1 n2
    let T := 1.0 - R
    let spawns1 : List SpawnCall :=
      if R > 0.01 then
        [⟨.colorK, true,
          spawnRay pt (Physics.reflect r2.direction n) r2.color r2.wavelength
            false (r2.intensity * R) r2.distance_traveled (r2.bounces + 1)⟩]
      else []
    if T > 0.01 then
      match Physics.refract r2.direction n n1 n2 with
      | some nd =>
        ⟨{ r2 with
            direction := nd
            intensity := r2.intensity * T
            bounces := r2.bounces + 1 }, spawns1, true⟩
      | none => ⟨{ r2 with active := false }, spawns1, false⟩
    else ⟨{ r2 with active := false }, spawns1, false⟩

/-- `trace`, no-hit branch (lines 1163-1176): extend the ray 2000 units,
    clip at the travel budget, deactivate.  The Python loop is not exited
    by `break` here, so the iteration counts against the step cap. -/
def traceNoHit (r : Ray) : StepOut :=
  let endv := r.origin.add (r.direction.smul 2000)
  let d' := r.distance_traveled + 2000
  if d' ≥ MAX_RAY_DISTANCE then
    let remaining := MAX_RAY_DISTANCE - (d' - 2000)
    if remaining > 0 then
      let e2 := r.origin.add (r.direction.smul remaining)
      ⟨{ r with
          distance_traveled := d'
          path := r.path ++ [(e2.x, e2.y)]
          active := false }, [], true⟩
    else
      ⟨{ r with distance_traveled := d', active := false }, [], true⟩
  else
    ⟨{ r with
        distance_traveled := d'
        path := r.path ++ [(endv.x, endv.y)]
        active := false }, [], true⟩

/-- One iteration of the `trace` loop body after the loop-top checks
    (lines 1019-1176), including the attenuation-based termination test of
    lines 1041-1044. -/
def traceStep (guard : ℝ) (env : Env) (r : Ray) : StepOut :=
  match findHit guard r env.items with
  | none => traceNoHit r
  | some best =>
    let r1 := { r with
                path := r.path ++ [(best.pt.x, best.pt.y)]
                distance_traveled := r.distance_traveled + best.dist
                origin := best.pt }
    if Game.get_intensity_at_distance r1.distance_traveled ≤ 0.01 then
      ⟨{ r1 with active := false }, [], false⟩
    else
      match best.item.type with
      | .PLANE_MIRROR | .CURVED_MIRROR => mirrorHit r1 best.n
      | .TRIANGLE | .RECTANGLE => traceRectHit env r1 best.pt best.n best.item.pos
      | _ => traceLensHit env r1 best.pt best.n best.item.pos

/-- `trace_color`, triangle/rectangle branch (lines 1212-1241). -/
def colorRectHit (env : Env) (r1 : Ray) (pt n itemPos : Vec) : StepOut :=
  let entering := n.dot (itemPos.sub pt) < 0
  let n1 := r1.material.get_ior r1.wavelength
  let n2 := if entering then env.glass.get_ior r1.wavelength
            else AIR.get_ior r1.wavelength
  let R := Physics.fresnel_reflectance r1.direction n n1 n2
  let T := 1.0 - R
  let spawns1 : List SpawnCall :=
    if R > 0.01 then
      [⟨.colorK, true,
        spawnRay pt (Physics.reflect r1.direction n) r1.color r1.wavelength
          false (r1.intensity * R) r1.distance_traveled (r1.bounces + 1)⟩]
    else []
  if T > 0.01 then
    match Physics.refract r1.direction n n1 n2 with
    | some nd =>
      ⟨{ r1 with
          direction := nd
          intensity := r1.intensity * T
          material := (if r1.material = AIR ∧ entering then env.glass else AIR)
          bounces := r1.bounces + 1 }, spawns1, true⟩
    | none => ⟨{ r1 with active := false }, spawns1, false⟩
  else ⟨{ r1 with active := false }, spawns1, false⟩

/-- `trace_color`, lens branch (lines 1242-1275): like the rectangle branch
    but with the three-way index selection of lines 1245-1250 (which, unlike
    `trace`, does not mutate the material there). -/
def colorLensHit (env : Env) (r1 : Ray) (pt n itemPos : Vec) : StepOut :=
  let entering := n.dot (itemPos.sub pt) < 0
  let sel : ℝ × ℝ :=
    if r1.material = env.glass ∧ ¬entering then
      (env.glass.get_ior r1.wavelength, AIR.get_ior r1.wavelength)
    else if entering then
      (AIR.get_ior r1.wavelength, env.glass.get_ior r1.wavelength)
    else
      (env.glass.get_ior r1.wavelength, AIR.get_ior r1.wavelength)
  let n1 := sel.1
  let n2 := sel.2
  let R := Physics.fresnel_reflectance r1.direction n n1 n2
  let T := 1.0 - R
  let spawns1 : List SpawnCall :=
    if R > 0.01 then
      [⟨.colorK, true,
        spawnRay pt (Physics.reflect r1.direction n) r1.color r1.wavelength
          false (r1.intensity * R) r1.distance_traveled (r1.bounces + 1)⟩]
    else []
  if T > 0.01 then
    match Physics.refract r1.direction n n1 n2 with
    | some nd =>
      ⟨{ r1 with
          direction := nd
          intensity := r1.intensity * T
          material := (if r1.material = AIR ∧ entering then env.glass else AIR)
          bounces := r1.bounces + 1 }, spawns1, true⟩
    | none => ⟨{ r1 with active := false }, spawns1, false⟩
  else ⟨{ r1 with active := false }, spawns1, false⟩

/-- `trace_color`, no-hit branch (lines 1276-1289): same as `trace` but the
    loop is exited with `break`. -/
def colorNoHit (r : Ray) : StepOut :=
  let o := traceNoHit r
  ⟨o.ray, o.spawns, false⟩

/-- One iteration of the `trace_color` loop body after the loop-top checks
    (lines 1187-1289): no attenuation check after a hit. -/
def colorStep (guard : ℝ) (env : Env) (r : Ray) : StepOut :=
  match findHit guard r env.items with
  | none => colorNoHit r
  | some best =>
    let r1 := { r with
                path := r.path ++ [(best.pt.x, best.pt.y)]
                distance_traveled := r.distance_traveled + best.dist
                origin := best.pt }
    match best.item.type with
    | .PLANE_MIRROR | .CURVED_MIRROR => mirrorHit r1 best.n
    | .TRIANGLE | .RECTANGLE => colorRectHit env r1 best.pt best.n best.item.pos
    | _ => colorLensHit env r1 best.pt best.n best.item.pos

/-- Execute one spawn: trace the child with the routine its site uses and
    splice it into the output list in append order (`pre` = append before
    the recursive call, as in `self.rays.append(x); self.trace(x)`). -/
def runSpawn (fT fC : Ray → Ray × List Ray) (c : SpawnCall) : List Ray :=
  let f := match c.kind with | .traceK => fT | .colorK => fC
  let res := f c.ray
  if c.pre then res.1 :: res.2 else res.2 ++ [res.1]

/-- The shared loop skeleton: the loop-top checks of lines 1011-1017 /
    1180-1185 (`break` when inactive or at the bounce cap 10; deactivate and
    `break` at the travel budget), then one `step`, executing its spawns. -/
def loopGen (fT fC : Ray → Ray × List Ray) (step : Ray → StepOut) :
    ℕ → Ray → List Ray → Ray × List Ray
  | 0, r, acc => (r, acc)
  | s + 1, r, acc =>
    if ¬ r.active ∨ 10 ≤ r.bounces then (r, acc)
    else if r.distance_traveled ≥ MAX_RAY_DISTANCE then
      ({ r with active := false }, acc)
    else
      let o := step r
      let acc' := acc ++ (o.spawns.map (runSpawn fT fC)).flatten
      if o.cont then loopGen fT fC step s o.ray acc' else (o.ray, acc')

/-- `trace_color` with an explicit minimum-hit-distance guard and recursion
    budget; the loop runs `range(10)` (line 1179) and children are traced by
    `trace_color` again. -/
def colorAuxG (guard : ℝ) (env : Env) : ℕ → Ray → Ray × List Ray
  | 0, r => (r, [])
  | b + 1, r =>
    loopGen (colorAuxG guard env b) (colorAuxG guard env b)
      (colorStep guard env) 10 r []

/-- `trace` with an explicit minimum-hit-distance guard and recursion
    budget; the loop runs `range(20)` (line 1011).  Spawned colored children
    are traced by `trace_color`, whose own guard constant is `1.0`. -/
def traceAuxG (guard : ℝ) (env : Env) : ℕ → Ray → Ray × List Ray
  | 0, r => (r, [])
  | b + 1, r =>
    loopGen (traceAuxG guard env b) (colorAuxG 1.0 env b)
      (traceStep guard env) 20 r []

/-- `Game.trace` (lines 1010-1176): guard `0.1`; budget 11 suffices (proved
    below), since every spawned ray carries `bounces + 1` and tracing stops
    at the bounce cap 10. -/
def Game.trace (env : Env) (r : Ray) : Ray × List Ray :=
  traceAuxG 0.1 env 11 r

/-- `Game.trace_color` (lines 1178-1289): guard `1.0`. -/
def Game.trace_color (env : Env) (r : Ray) : Ray × List Ray :=
  colorAuxG 1.0 env 11 r

/-! ### Basic vector lemmas -/

theorem Vec.length_mk (a b : ℝ) :
    (Vec.mk a b).length = Real.sqrt (a ^ 2 + b ^ 2) := rfl

theorem Vec.dot_self_eq (v : Vec) : v.dot v = v.x ^ 2 + v.y ^ 2 := by
  simp only [Vec.dot]; ring

theorem Vec.sq_add_sq_of_length_one (v : Vec) (h : v.length = 1) :
    v.x ^ 2 + v.y ^ 2 = 1 := by
  have h0 : (0 : ℝ) ≤ v.x ^ 2 + v.y ^ 2 := by positivity
  have := Real.sqrt_eq_one.mp h
  exact this

theorem Vec.normalize_of_length_one (v : Vec) (h : v.length = 1) :
    v.normalize = v := by
  simp only [Vec.normalize, h]
  norm_num

theorem Vec.length_neg (v : Vec) : v.neg.length = v.length := by
  simp only [Vec.neg, Vec.length]
  ring_nf

end

/-! ## Claims -/

section Claims

/-- **C7**: `Material.set_base_ior b` sets the six band indices to exactly
    `b, b+0.025, b+0.050, b+0.075, b+0.100, b+0.125` for red, orange,
    yellow, green, blue, violet respectively, so the strict ordering
    red < orange < yellow < green < blue < violet holds for any base. -/
theorem C7_set_base_ior (m : Material) (b : ℝ) :
    m.set_base_ior b =
      ⟨b, b + 0.025, b + 0.050, b + 0.075, b + 0.100, b + 0.125⟩ ∧
    ((m.set_base_ior b).ior_red < (m.set_base_ior b).ior_orange ∧
     (m.set_base_ior b).ior_orange < (m.set_base_ior b).ior_yellow ∧
     (m.set_base_ior b).ior_yellow < (m.set_base_ior b).ior_green ∧
     (m.set_base_ior b).ior_green < (m.set_base_ior b).ior_blue ∧
     (m.set_base_ior b).ior_blue < (m.set_base_ior b).ior_violet) := by
  refine ⟨rfl, ?_, ?_, ?_, ?_, ?_⟩ <;>
    simp only [Material.set_base_ior] <;> norm_num

/-- **C10**: `Material.get_ior` is total over arbitrary wavelength strings:
    any wavelength that is not one of the six band names or "white" yields
    the ambient index 1.0. -/
theorem C10_get_ior_default (m : Material) (w : String)
    (h : w ∉ ["red", "orange", "yellow", "green", "blue", "violet", "white"]) :
    m.get_ior w = 1.0 := by
  simp only [List.mem_cons, List.not_mem_nil, or_false, not_or] at h
  obtain ⟨h1, h2, h3, h4, h5, h6, h7⟩ := h
  simp only [Material.get_ior, if_neg h1, if_neg h2, if_neg h3, if_neg h4,
    if_neg h5, if_neg h6, if_neg h7]

/-- Witness for C10 at the concrete wavelength "infrared". -/
theorem C10_witness :
    "infrared" ∉ ["red", "orange", "yellow", "green", "blue", "violet", "white"] ∧
    GLASS.get_ior "infrared" = 1.0 :=
  ⟨by decide, C10_get_ior_default GLASS "infrared" (by decide)⟩

/-- **C5**: for `n1 = 1.5`, `n2 = 1.0` and an incident direction opposing the
    surface normal beyond the critical angle — `(n1/n2)² · (1 − cos²θᵢ) > 1`
    with `cosθᵢ = −n̂·î` — `Physics.refract` returns no solution and
    `Physics.fresnel_reflectance` returns exactly 1.0. -/
theorem C5_total_internal_reflection (inc n : Vec)
    (hop : (n.normalize).dot (inc.normalize) ≤ 0)
    (hcrit : ((1.5 : ℝ) / 1.0) ^ 2 *
      (1 - ((n.normalize).dot (inc.normalize)) ^ 2) > 1) :
    Physics.refract inc n 1.5 1.0 = none ∧
    Physics.fresnel_reflectance inc n 1.5 1.0 = 1.0 := by
  have hsq : ∀ a : ℝ, (-a) ^ 2 = a ^ 2 := fun a => neg_sq a
  constructor
  · simp only [Physics.refract]
    rw [if_neg (not_lt.mpr hop)]
    rw [if_pos]
    rw [hsq]
    exact hcrit
  · simp only [Physics.fresnel_reflectance]
    rw [if_pos]
    refine ⟨by norm_num, ?_⟩
    rw [hsq]
    exact lt_of_le_of_lt (by norm_num) hcrit

/-- Witness for C5: incidence at `cosθᵢ = 3/5` (≈53°, beyond the ≈41.8°
    critical angle) with normal `(0,1)` and incident `(4/5, −3/5)`. -/
theorem C5_witness :
    Physics.refract ⟨4 / 5, -(3 / 5)⟩ ⟨0, 1⟩ 1.5 1.0 = none ∧
    Physics.fresnel_reflectance ⟨4 / 5, -(3 / 5)⟩ ⟨0, 1⟩ 1.5 1.0 = 1.0 := by
  have hinc : (Vec.mk (4 / 5) (-(3 / 5))).normalize = ⟨4 / 5, -(3 / 5)⟩ := by
    apply Vec.normalize_of_length_one
    rw [Vec.length_mk]
    rw [show ((4 : ℝ) / 5) ^ 2 + (-(3 / 5)) ^ 2 = 1 by norm_num]
    exact Real.sqrt_one
  have hn : (Vec.mk 0 1).normalize = ⟨0, 1⟩ := by
    apply Vec.normalize_of_length_one
    rw [Vec.length_mk]
    rw [show ((0 : ℝ)) ^ 2 + (1 : ℝ) ^ 2 = 1 by norm_num]
    exact Real.sqrt_one
  have hdot : (Vec.mk 0 1).normalize.dot (Vec.mk (4 / 5) (-(3 / 5))).normalize
      = -(3 / 5) := by
    rw [hinc, hn]; simp [Vec.dot]
  exact C5_total_internal_reflection _ _
    (by rw [hdot]; norm_num) (by rw [hdot]; norm_num)

/-- At normal incidence (unit incident direction anti-parallel to the
    normal) `Physics.refract` passes the ray through unchanged, for any
    index pair. -/
theorem refract_head_on (inc n : Vec) (n1 n2 : ℝ)
    (hunit : inc.length = 1) (hn : n = inc.neg) :
    Physics.refract inc n n1 n2 = some inc := by
  have hinc : inc.normalize = inc := Vec.normalize_of_length_one inc hunit
  have hnlen : n.length = 1 := by rw [hn, Vec.length_neg, hunit]
  have hnn : n.normalize = n := Vec.normalize_of_length_one n hnlen
  have hsq : inc.x ^ 2 + inc.y ^ 2 = 1 := Vec.sq_add_sq_of_length_one inc hunit
  have hdot : n.dot inc = -1 := by
    rw [hn]
    simp only [Vec.neg, Vec.dot]
    nlinarith [hsq]
  simp only [Physics.refract, hinc, hnn, hdot]
  have hflip : (if (-1 : ℝ) > 0 then n.neg else n) = n := if_neg (by norm_num)
  rw [hflip, hdot]
  rw [if_neg (by norm_num)]
  have harg : (1 : ℝ) - (n1 / n2) ^ 2 * (1 - (- -1 : ℝ) ^ 2) = 1 := by norm_num
  rw [harg, Real.sqrt_one]
  have hres : ((inc.smul (n1 / n2)).add
      (n.smul (n1 / n2 * (- -1) - 1))) = inc := by
    rw [hn]
    simp only [Vec.neg, Vec.smul, Vec.add]
    obtain ⟨ix, iy⟩ := inc
    simp only [Vec.mk.injEq]
    constructor <;> ring
  rw [hres, hinc]

/-- **C8**: for positive indices and a unit incident direction exactly
    anti-parallel to the surface normal (normal incidence),
    `Physics.refract` returns the incident direction unchanged. -/
theorem C8_normal_incidence (inc n : Vec) (n1 n2 : ℝ)
    (h1 : 0 < n1) (h2 : 0 < n2) (hunit : inc.length = 1) (hn : n = inc.neg) :
    Physics.refract inc n n1 n2 = some inc :=
  refract_head_on inc n n1 n2 hunit hn

/-- Witness for C8: a unit ray `(1,0)` hitting a boundary with normal
    `(−1,0)` head-on, with indices 1.5 → 1.0. -/
theorem C8_witness :
    Physics.refract ⟨1, 0⟩ ⟨-1, 0⟩ 1.5 1.0 = some ⟨1, 0⟩ := by
  have hunit : (Vec.mk 1 0).length = 1 := by
    rw [Vec.length_mk]
    rw [show ((1 : ℝ)) ^ 2 + (0 : ℝ) ^ 2 = 1 by norm_num]
    exact Real.sqrt_one
  exact C8_normal_incidence ⟨1, 0⟩ ⟨-1, 0⟩ 1.5 1.0 (by norm_num) (by norm_num)
    hunit (by simp [Vec.neg])

/-! ### C1: sensor eligibility uses the stored intensity field -/

noncomputable section

/-- A white-seeking sensor at the origin (radius 35). -/
def exC1sensor : Sensor := mkSensor 0 0 WHITE 50

/-- A white ray whose traveled distance equals the travel budget (6000) but
    whose stored `intensity` field is still 1; its two-point path passes
    through the sensor center.  (The no-hit branch of `Game.trace` produces
    rays of exactly this shape: `distance_traveled` is bumped past the
    budget while `intensity` is never touched.) -/
def exC1ray : Ray :=
  { origin := ⟨10, 0⟩
    direction := ⟨1, 0⟩
    color := WHITE
    wavelength := "white"
    is_white := true
    path := [(-10, 0), (10, 0)]
    active := false
    bounces := 0
    material := AIR
    intensity := 1
    distance_traveled := 6000 }

theorem exC1_check : Sensor.check_hit exC1sensor exC1ray = true := by
  rw [Sensor.check_hit]
  rw [if_neg (by norm_num [exC1ray])]
  simp only [exC1ray, exC1sensor, mkSensor, List.length_cons, List.length_nil]
  norm_num [show List.range 1 = [0] from rfl, List.any_cons, List.any_nil,
    List.getD, Vec.sub, Vec.dot, Vec.add, Vec.smul, Vec.length, Real.sqrt_zero]

theorem exC1_update : (Sensor.update exC1sensor [exC1ray]).1.active = true := by
  simp only [Sensor.update, List.any_cons, List.any_nil, Bool.or_false]
  rw [exC1_check]
  simp only [Sensor.color_match]
  norm_num [exC1ray, exC1sensor, mkSensor]

end

/-- **C1** counterexample: the sensor hit-test admits a ray whose traveled
    distance equals the maximum travel budget (attenuation-based intensity
    `clamp(1 − 6000/6000, 0, 1) = 0 < 0.2`), because the eligibility filter
    reads the stored `intensity` field (here 1), contradicting the claim
    that such a ray contributes nothing to any sensor check. -/
theorem C1_counterexample :
    exC1ray.distance_traveled = MAX_RAY_DISTANCE ∧
    Game.get_intensity_at_distance exC1ray.distance_traveled < 0.2 ∧
    Sensor.check_hit exC1sensor exC1ray = true ∧
    (Sensor.update exC1sensor [exC1ray]).1.active = true := by
  refine ⟨rfl, ?_, exC1_check, exC1_update⟩
  norm_num [Game.get_intensity_at_distance, exC1ray, MAX_RAY_DISTANCE]

/-- **C1** (amended): the eligibility filter in `Sensor.check_hit` (and the
    identical filter in `Sensor.update`) admits a ray only if its *stored*
    `intensity` field is at least the visibility floor 0.2 (and the path has
    at least two points); the attenuation-based value derived from
    `distance_traveled` plays no role in sensor checks. -/
theorem C1_amended (s : Sensor) (r : Ray) (h : s.check_hit r = true) :
    0.2 ≤ r.intensity ∧ 2 ≤ r.path.length := by
  rw [Sensor.check_hit] at h
  by_cases hcond : r.path.length < 2 ∨ r.intensity < 0.2
  · rw [if_pos hcond] at h
    exact absurd h (by simp)
  · push_neg at hcond
    exact ⟨hcond.2, hcond.1⟩

/-- Witness for the amended C1 at a concrete sensor and ray. -/
theorem C1_witness :
    (0.2 : ℝ) ≤ exC1ray.intensity ∧ 2 ≤ exC1ray.path.length :=
  C1_amended exC1sensor exC1ray exC1_check

/-! ### C2: the bounce cap stops tracing but does not mark the ray inactive -/

theorem loopGen_stop (fT fC : Ray → Ray × List Ray) (step : Ray → StepOut)
    (s : ℕ) (r : Ray) (acc : List Ray) (h : ¬ r.active ∨ 10 ≤ r.bounces) :
    loopGen fT fC step s r acc = (r, acc) := by
  cases s with
  | zero => rfl
  | succ s => rw [loopGen, if_pos h]

theorem traceAuxG_bcap (g : ℝ) (env : Env) (b : ℕ) (r : Ray)
    (h : 10 ≤ r.bounces) : traceAuxG g env b r = (r, []) := by
  cases b with
  | zero => rfl
  | succ b => rw [traceAuxG]; exact loopGen_stop _ _ _ _ _ _ (Or.inr h)

theorem colorAuxG_bcap (g : ℝ) (env : Env) (b : ℕ) (r : Ray)
    (h : 10 ≤ r.bounces) : colorAuxG g env b r = (r, []) := by
  cases b with
  | zero => rfl
  | succ b => rw [colorAuxG]; exact loopGen_stop _ _ _ _ _ _ (Or.inr h)

theorem traceAuxG_inactive (g : ℝ) (env : Env) (b : ℕ) (r : Ray)
    (h : ¬ r.active) : traceAuxG g env b r = (r, []) := by
  cases b with
  | zero => rfl
  | succ b => rw [traceAuxG]; exact loopGen_stop _ _ _ _ _ _ (Or.inl h)

theorem colorAuxG_inactive (g : ℝ) (env : Env) (b : ℕ) (r : Ray)
    (h : ¬ r.active) : colorAuxG g env b r = (r, []) := by
  cases b with
  | zero => rfl
  | succ b => rw [colorAuxG]; exact loopGen_stop _ _ _ _ _ _ (Or.inl h)

noncomputable section

/-- The empty scene. -/
def exC2env : Env := ⟨[], GLASS⟩

/-- An active ray whose bounce count has reached the cap 10 — exactly the
    state of a sibling spawned (with `bounces = parent.bounces + 1`) by a
    parent that was at bounce 9. -/
def exC2ray : Ray :=
  { origin := ⟨0, 0⟩
    direction := ⟨1, 0⟩
    color := RED
    wavelength := "red"
    is_white := false
    path := [(0, 0)]
    active := true
    bounces := 10
    material := AIR
    intensity := 1
    distance_traveled := 0 }

end

/-- **C2** counterexample: a ray processed at the bounce cap is *not*
    terminated — both tracers return it unchanged with its `active` flag
    still `true` (the loop merely `break`s; only the travel-budget check
    sets `active = False`). -/
theorem C2_counterexample :
    exC2ray.bounces = 10 ∧ exC2ray.active = true ∧
    (Game.trace exC2env exC2ray).1.active = true ∧
    (Game.trace_color exC2env exC2ray).1.active = true := by
  refine ⟨rfl, rfl, ?_, ?_⟩
  · rw [Game.trace, traceAuxG_bcap _ _ _ _ (by norm_num [exC2ray])]; rfl
  · rw [Game.trace_color, colorAuxG_bcap _ _ _ _ (by norm_num [exC2ray])]; rfl

/-- **C2** (amended): when a ray's bounce count has reached the bounce cap
    (10), both `Game.trace` and `Game.trace_color` stop processing it
    immediately and return it unchanged — in particular its `active` flag is
    left as it was, *not* set to false (unlike the travel-budget check,
    which does mark the ray inactive). -/
theorem C2_amended (env : Env) (r : Ray) (h : 10 ≤ r.bounces) :
    Game.trace env r = (r, []) ∧ Game.trace_color env r = (r, []) :=
  ⟨traceAuxG_bcap _ _ _ _ h, colorAuxG_bcap _ _ _ _ h⟩

/-- Witness for the amended C2 at a concrete ray with `bounces = 10`. -/
theorem C2_witness :
    10 ≤ exC2ray.bounces ∧ Game.trace exC2env exC2ray = (exC2ray, []) ∧
    Game.trace_color exC2env exC2ray = (exC2ray, []) :=
  ⟨by norm_num [exC2ray],
   (C2_amended exC2env exC2ray (by norm_num [exC2ray])).1,
   (C2_amended exC2env exC2ray (by norm_num [exC2ray])).2⟩

/-! ### C6 groundwork: the Fresnel reflectance lies in [0,1] whenever the
    indices are positive and the supplied normal opposes the incident
    direction (which the tracer's hit search guarantees by flipping). -/

/-- All six stored indices of a material are positive. -/
def Material.posIors (m : Material) : Prop :=
  0 < m.ior_red ∧ 0 < m.ior_orange ∧ 0 < m.ior_yellow ∧
  0 < m.ior_green ∧ 0 < m.ior_blue ∧ 0 < m.ior_violet

theorem AIR_posIors : AIR.posIors := by
  refine ⟨?_, ?_, ?_, ?_, ?_, ?_⟩ <;> norm_num [AIR]

theorem GLASS_posIors : GLASS.posIors := by
  refine ⟨?_, ?_, ?_, ?_, ?_, ?_⟩ <;> norm_num [GLASS]

theorem Material.get_ior_pos (m : Material) (h : m.posIors) (w : String) :
    0 < m.get_ior w := by
  obtain ⟨h1, h2, h3, h4, h5, h6⟩ := h
  rw [Material.get_ior]
  repeat' split
  all_goals first | assumption | positivity | norm_num

theorem Vec.dot_sq_le (v w : Vec) :
    (v.dot w) ^ 2 ≤ (v.x ^ 2 + v.y ^ 2) * (w.x ^ 2 + w.y ^ 2) := by
  simp only [Vec.dot]
  nlinarith [sq_nonneg (v.x * w.y - v.y * w.x)]

theorem Vec.normalize_sq_le_one (v : Vec) :
    (v.normalize).x ^ 2 + (v.normalize).y ^ 2 ≤ 1 := by
  rw [Vec.normalize]
  split
  · rename_i hl
    have h0 : (0 : ℝ) ≤ v.x ^ 2 + v.y ^ 2 := by positivity
    have hsq : v.length ^ 2 = v.x ^ 2 + v.y ^ 2 := Real.sq_sqrt h0
    have hpos : 0 < v.x ^ 2 + v.y ^ 2 := by
      have := Real.sqrt_pos.mp hl
      exact this
    simp only
    rw [div_pow, div_pow, div_add_div_same, hsq]
    rw [div_self (ne_of_gt hpos)]
  · norm_num

theorem Vec.normalize_dot_sq_le_one (v w : Vec) :
    ((v.normalize).dot (w.normalize)) ^ 2 ≤ 1 := by
  have h := Vec.dot_sq_le v.normalize w.normalize
  have h1 := Vec.normalize_sq_le_one v
  have h2 := Vec.normalize_sq_le_one w
  have hv : (0 : ℝ) ≤ (v.normalize).x ^ 2 + (v.normalize).y ^ 2 := by positivity
  have hw : (0 : ℝ) ≤ (w.normalize).x ^ 2 + (w.normalize).y ^ 2 := by positivity
  nlinarith

theorem Vec.normalize_dot_nonpos (v w : Vec) (h : v.dot w ≤ 0) :
    (v.normalize).dot (w.normalize) ≤ 0 := by
  rw [Vec.normalize, Vec.normalize]
  split
  · rename_i hv
    split
    · rename_i hw
      simp only [Vec.dot] at h ⊢
      have : v.x / v.length * (w.x / w.length) + v.y / v.length * (w.y / w.length)
          = (v.x * w.x + v.y * w.y) / (v.length * w.length) := by
        field_simp
      rw [this]
      exact div_nonpos_of_nonpos_of_nonneg h (by positivity)
    · simp [Vec.dot]
  · simp [Vec.dot]

/-- Schlick's approximation returns a value in [0,1] for positive indices
    when the normal opposes the incident direction. -/
theorem fresnel_mem (incident normal : Vec) (n1 n2 : ℝ)
    (h1 : 0 < n1) (h2 : 0 < n2)
    (hop : normal.dot incident ≤ 0) :
    0 ≤ Physics.fresnel_reflectance incident normal n1 n2 ∧
    Physics.fresnel_reflectance incident normal n1 n2 ≤ 1 := by
  rw [Physics.fresnel_reflectance]
  have hdot := Vec.normalize_dot_nonpos normal incident hop
  have hsq := Vec.normalize_dot_sq_le_one normal incident
  set c : ℝ := -((normal.normalize).dot (incident.normalize)) with hc
  have hc0 : 0 ≤ c := by rw [hc]; linarith
  have hc1 : c ≤ 1 := by nlinarith [hsq]
  split
  · norm_num
  · have hr0 : (0 : ℝ) ≤ ((n1 - n2) / (n1 + n2)) ^ 2 := sq_nonneg _
    have hr1 : ((n1 - n2) / (n1 + n2)) ^ 2 ≤ 1 := by
      rw [div_pow, div_le_one (by positivity)]
      nlinarith
    have hs0 : (0 : ℝ) ≤ (1 - c) ^ 5 := pow_nonneg (by linarith) 5
    have hs1 : (1 - c) ^ 5 ≤ 1 := pow_le_one₀ (by linarith) (by linarith)
    have h1a : (0 : ℝ) ≤ 1 - ((n1 - n2) / (n1 + n2)) ^ 2 := by linarith
    have hp1 : (0 : ℝ) ≤ (1 - ((n1 - n2) / (n1 + n2)) ^ 2) * (1 - c) ^ 5 :=
      mul_nonneg h1a hs0
    have hp2 : (1 - ((n1 - n2) / (n1 + n2)) ^ 2) * (1 - c) ^ 5 ≤
        1 - ((n1 - n2) / (n1 + n2)) ^ 2 :=
      mul_le_of_le_one_right h1a hs1
    constructor
    · show (0 : ℝ) ≤ ((n1 - n2) / (n1 + n2)) ^ 2 +
        (1 - ((n1 - n2) / (n1 + n2)) ^ 2) * (1 - c) ^ 5
      linarith
    · show ((n1 - n2) / (n1 + n2)) ^ 2 +
        (1 - ((n1 - n2) / (n1 + n2)) ^ 2) * (1 - c) ^ 5 ≤ 1
      linarith

/-- One step of the hit search preserves "the stored normal opposes the ray
    direction". -/
theorem considerSeg_n_opp (g : ℝ) (r : Ray) (it : Item) (acc : Option Best)
    (seg : Vec × Vec)
    (hacc : ∀ b', acc = some b' → b'.n.dot r.direction ≤ 0)
    (b'' : Best) (h : considerSeg g r it acc seg = some b'') :
    b''.n.dot r.direction ≤ 0 := by
  rw [considerSeg] at h
  split at h
  · exact hacc _ h
  · split at h
    · injection h with h
      subst h
      dsimp only
      split
      · rename_i hflip
        simp only [Vec.neg, Vec.dot] at hflip ⊢
        linarith
      · rename_i hflip
        exact le_of_not_lt hflip
    · exact hacc _ h

theorem foldl_considerSeg_n_opp (g : ℝ) (r : Ray) (it : Item)
    (segs : List (Vec × Vec)) (acc : Option Best)
    (hacc : ∀ b', acc = some b' → b'.n.dot r.direction ≤ 0)
    (b' : Best) (h : segs.foldl (considerSeg g r it) acc = some b') :
    b'.n.dot r.direction ≤ 0 := by
  induction segs generalizing acc with
  | nil => exact hacc b' h
  | cons s ss ih =>
    refine ih _ ?_ h
    intro b'' hb''
    exact considerSeg_n_opp g r it acc s hacc b'' hb''

/-- Any best hit returned by the search has its normal flipped to oppose
    the ray direction (lines 1030-1032 / 1198-1200). -/
theorem findHit_n_opp (g : ℝ) (r : Ray) (items : List Item) (b : Best)
    (h : findHit g r items = some b) : b.n.dot r.direction ≤ 0 := by
  rw [findHit] at h
  have key : ∀ (l : List Item) (acc : Option Best),
      (∀ b', acc = some b' → b'.n.dot r.direction ≤ 0) →
      ∀ b', l.foldl (fun acc it => it.get_segments.foldl (considerSeg g r it) acc) acc = some b' →
        b'.n.dot r.direction ≤ 0 := by
    intro l
    induction l with
    | nil => intro acc hacc b' hb'; exact hacc b' hb'
    | cons it rest ih =>
      intro acc hacc b' hb'
      refine ih _ ?_ b' hb'
      intro b'' hb''
      exact foldl_considerSeg_n_opp g r it _ _ hacc b'' hb''
  exact key items none (by intro b' hb'; cases hb') b h

/-! ### Per-branch intensity invariants -/

theorem mulT_le (i R : ℝ) (hi : 0 ≤ i) (hR0 : 0 ≤ R) (hR1 : R ≤ 1) :
    i * (1.0 - R) ≤ i ∧ 0 ≤ i * (1.0 - R) := by
  constructor
  · apply mul_le_of_le_one_right hi
    linarith
  · apply mul_nonneg hi
    linarith

theorem mirrorHit_inv (r1 : Ray) (n : Vec)
    (hi : 0 ≤ r1.intensity) (hm : r1.material.posIors) :
    (mirrorHit r1 n).ray.intensity ≤ r1.intensity ∧
    0 ≤ (mirrorHit r1 n).ray.intensity ∧
    (mirrorHit r1 n).ray.material.posIors :=
  ⟨le_refl _, hi, hm⟩

theorem traceNoHit_inv (r : Ray)
    (hi : 0 ≤ r.intensity) (hm : r.material.posIors) :
    (traceNoHit r).ray.intensity ≤ r.intensity ∧
    0 ≤ (traceNoHit r).ray.intensity ∧
    (traceNoHit r).ray.material.posIors := by
  simp only [traceNoHit]
  split
  · split
    · exact ⟨le_refl _, hi, hm⟩
    · exact ⟨le_refl _, hi, hm⟩
  · exact ⟨le_refl _, hi, hm⟩

theorem mul_fres_le (i : ℝ) (inc nv : Vec) (n1 n2 : ℝ) (hi : 0 ≤ i)
    (h1 : 0 < n1) (h2 : 0 < n2) (hop : nv.dot inc ≤ 0) :
    i * (1.0 - Physics.fresnel_reflectance inc nv n1 n2) ≤ i ∧
    0 ≤ i * (1.0 - Physics.fresnel_reflectance inc nv n1 n2) := by
  have hR := fresnel_mem inc nv n1 n2 h1 h2 hop
  exact mulT_le i _ hi hR.1 hR.2

theorem traceRectHit_inv (env : Env) (r1 : Ray) (pt n itemPos : Vec)
    (hg : env.glass.posIors) (hi : 0 ≤ r1.intensity) (hm : r1.material.posIors)
    (hn : n.dot r1.direction ≤ 0) :
    (traceRectHit env r1 pt n itemPos).ray.intensity ≤ r1.intensity ∧
    0 ≤ (traceRectHit env r1 pt n itemPos).ray.intensity ∧
    (traceRectHit env r1 pt n itemPos).ray.material.posIors := by
  simp only [traceRectHit]
  repeat' split
  all_goals
    first
      | exact ⟨le_refl _, hi, hm⟩
      | exact ⟨le_refl _, hi, hg⟩
      | exact ⟨le_refl _, hi, AIR_posIors⟩
      | (refine ⟨(mul_fres_le _ _ _ _ _ hi ?_ ?_ hn).1,
            (mul_fres_le _ _ _ _ _ hi ?_ ?_ hn).2, ?_⟩ <;>
          first
            | exact Material.get_ior_pos _ hm _
            | exact Material.get_ior_pos _ hg _
            | exact Material.get_ior_pos _ AIR_posIors _
            | exact hm
            | exact hg
            | exact AIR_posIors)

theorem traceLensHit_inv (env : Env) (r1 : Ray) (pt n itemPos : Vec)
    (hg : env.glass.posIors) (hi : 0 ≤ r1.intensity) (hm : r1.material.posIors)
    (hn : n.dot r1.direction ≤ 0) :
    (traceLensHit env r1 pt n itemPos).ray.intensity ≤ r1.intensity ∧
    0 ≤ (traceLensHit env r1 pt n itemPos).ray.intensity ∧
    (traceLensHit env r1 pt n itemPos).ray.material.posIors := by
  simp only [traceLensHit]
  repeat' split
  all_goals
    first
      | exact ⟨le_refl _, hi, hm⟩
      | exact ⟨le_refl _, hi, hg⟩
      | exact ⟨le_refl _, hi, AIR_posIors⟩
      | (refine ⟨(mul_fres_le _ _ _ _ _ hi ?_ ?_ hn).1,
            (mul_fres_le _ _ _ _ _ hi ?_ ?_ hn).2, ?_⟩ <;>
          first
            | exact Material.get_ior_pos _ hm _
            | exact Material.get_ior_pos _ hg _
            | exact Material.get_ior_pos _ AIR_posIors _
            | exact hm
            | exact hg
            | exact AIR_posIors)

theorem colorRectHit_inv (env : Env) (r1 : Ray) (pt n itemPos : Vec)
    (hg : env.glass.posIors) (hi : 0 ≤ r1.intensity) (hm : r1.material.posIors)
    (hn : n.dot r1.direction ≤ 0) :
    (colorRectHit env r1 pt n itemPos).ray.intensity ≤ r1.intensity ∧
    0 ≤ (colorRectHit env r1 pt n itemPos).ray.intensity ∧
    (colorRectHit env r1 pt n itemPos).ray.material.posIors := by
  simp only [colorRectHit]
  repeat' split
  all_goals
    first
      | exact ⟨le_refl _, hi, hm⟩
      | exact ⟨le_refl _, hi, hg⟩
      | exact ⟨le_refl _, hi, AIR_posIors⟩
      | (refine ⟨(mul_fres_le _ _ _ _ _ hi ?_ ?_ hn).1,
            (mul_fres_le _ _ _ _ _ hi ?_ ?_ hn).2, ?_⟩ <;>
          first
            | exact Material.get_ior_pos _ hm _
            | exact Material.get_ior_pos _ hg _
            | exact Material.get_ior_pos _ AIR_posIors _
            | exact hm
            | exact hg
            | exact AIR_posIors)

theorem colorLensHit_inv (env : Env) (r1 : Ray) (pt n itemPos : Vec)
    (hg : env.glass.posIors) (hi : 0 ≤ r1.intensity) (hm : r1.material.posIors)
    (hn : n.dot r1.direction ≤ 0) :
    (colorLensHit env r1 pt n itemPos).ray.intensity ≤ r1.intensity ∧
    0 ≤ (colorLensHit env r1 pt n itemPos).ray.intensity ∧
    (colorLensHit env r1 pt n itemPos).ray.material.posIors := by
  simp only [colorLensHit]
  repeat' split
  all_goals
    first
      | exact ⟨le_refl _, hi, hm⟩
      | exact ⟨le_refl _, hi, hg⟩
      | exact ⟨le_refl _, hi, AIR_posIors⟩
      | (refine ⟨(mul_fres_le _ _ _ _ _ hi ?_ ?_ hn).1,
            (mul_fres_le _ _ _ _ _ hi ?_ ?_ hn).2, ?_⟩ <;>
          first
            | exact Material.get_ior_pos _ hm _
            | exact Material.get_ior_pos _ hg _
            | exact Material.get_ior_pos _ AIR_posIors _
            | exact hm
            | exact hg
            | exact AIR_posIors)

theorem traceStep_inv (g : ℝ) (env : Env) (r : Ray) (hg : env.glass.posIors)
    (hi : 0 ≤ r.intensity) (hm : r.material.posIors) :
    (traceStep g env r).ray.intensity ≤ r.intensity ∧
    0 ≤ (traceStep g env r).ray.intensity ∧
    (traceStep g env r).ray.material.posIors := by
  cases hfind : findHit g r env.items with
  | none =>
    simp only [traceStep, hfind]
    exact traceNoHit_inv r hi hm
  | some best =>
    have hn : best.n.dot r.direction ≤ 0 := findHit_n_opp g r env.items best hfind
    simp only [traceStep, hfind]
    split
    · exact ⟨le_refl _, hi, hm⟩
    · split
      all_goals
        first
          | exact mirrorHit_inv _ _ hi hm
          | exact traceRectHit_inv env _ _ _ _ hg hi hm hn
          | exact traceLensHit_inv env _ _ _ _ hg hi hm hn

theorem colorStep_inv (g : ℝ) (env : Env) (r : Ray) (hg : env.glass.posIors)
    (hi : 0 ≤ r.intensity) (hm : r.material.posIors) :
    (colorStep g env r).ray.intensity ≤ r.intensity ∧
    0 ≤ (colorStep g env r).ray.intensity ∧
    (colorStep g env r).ray.material.posIors := by
  cases hfind : findHit g r env.items with
  | none =>
    simp only [colorStep, hfind, colorNoHit]
    exact traceNoHit_inv r hi hm
  | some best =>
    have hn : best.n.dot r.direction ≤ 0 := findHit_n_opp g r env.items best hfind
    simp only [colorStep, hfind]
    split
    all_goals
      first
        | exact mirrorHit_inv _ _ hi hm
        | exact colorRectHit_inv env _ _ _ _ hg hi hm hn
        | exact colorLensHit_inv env _ _ _ _ hg hi hm hn

theorem loopGen_inv (fT fC : Ray → Ray × List Ray) (step : Ray → StepOut)
    (hstep : ∀ r, 0 ≤ r.intensity → r.material.posIors →
      (step r).ray.intensity ≤ r.intensity ∧ 0 ≤ (step r).ray.intensity ∧
      (step r).ray.material.posIors) :
    ∀ (s : ℕ) (r : Ray) (acc : List Ray), 0 ≤ r.intensity → r.material.posIors →
      (loopGen fT fC step s r acc).1.intensity ≤ r.intensity ∧
      0 ≤ (loopGen fT fC step s r acc).1.intensity ∧
      (loopGen fT fC step s r acc).1.material.posIors := by
  intro s
  induction s with
  | zero => intro r acc hi hm; exact ⟨le_refl _, hi, hm⟩
  | succ s ih =>
    intro r acc hi hm
    simp only [loopGen]
    split
    · exact ⟨le_refl _, hi, hm⟩
    · split
      · exact ⟨le_refl _, hi, hm⟩
      · obtain ⟨h1, h2, h3⟩ := hstep r hi hm
        split
        · obtain ⟨g1, g2, g3⟩ := ih (step r).ray _ h2 h3
          exact ⟨le_trans g1 h1, g2, g3⟩
        · exact ⟨h1, h2, h3⟩

theorem colorAuxG_inv (g : ℝ) (env : Env) (hg : env.glass.posIors)
    (b : ℕ) (r : Ray) (hi : 0 ≤ r.intensity) (hm : r.material.posIors) :
    (colorAuxG g env b r).1.intensity ≤ r.intensity ∧
    0 ≤ (colorAuxG g env b r).1.intensity ∧
    (colorAuxG g env b r).1.material.posIors := by
  cases b with
  | zero => exact ⟨le_refl _, hi, hm⟩
  | succ b =>
    rw [colorAuxG]
    exact loopGen_inv _ _ _ (fun r hi hm => colorStep_inv g env r hg hi hm)
      10 r [] hi hm

theorem traceAuxG_inv (g : ℝ) (env : Env) (hg : env.glass.posIors)
    (b : ℕ) (r : Ray) (hi : 0 ≤ r.intensity) (hm : r.material.posIors) :
    (traceAuxG g env b r).1.intensity ≤ r.intensity ∧
    0 ≤ (traceAuxG g env b r).1.intensity ∧
    (traceAuxG g env b r).1.material.posIors := by
  cases b with
  | zero => exact ⟨le_refl _, hi, hm⟩
  | succ b =>
    rw [traceAuxG]
    exact loopGen_inv _ _ _ (fun r hi hm => traceStep_inv g env r hg hi hm)
      20 r [] hi hm

/-- **C6**: across all steps of a ray's own trace (spawned siblings are
    separate rays), the `intensity` field never increases: every
    multiplicative update uses `T = 1 − R` with `R = fresnel_reflectance ∈
    [0,1]` (the indices are positive and the hit search always flips the
    normal to oppose the ray direction), so the final intensity returned by
    `Game.trace` / `Game.trace_color` is at most the initial one. -/
theorem C6_intensity_nonincreasing (env : Env) (r : Ray)
    (hg : env.glass.posIors) (hi : 0 ≤ r.intensity) (hm : r.material.posIors) :
    (Game.trace env r).1.intensity ≤ r.intensity ∧
    (Game.trace_color env r).1.intensity ≤ r.intensity :=
  ⟨(traceAuxG_inv 0.1 env hg 11 r hi hm).1,
   (colorAuxG_inv 1.0 env hg 11 r hi hm).1⟩

noncomputable section

/-- The empty scene with the default glass. -/
def exC6env : Env := ⟨[], GLASS⟩

/-- A freshly emitted white ray (as built by `Game.update`, line 1303). -/
def exC6ray : Ray := mkRay ⟨350, 400⟩ ⟨1, 0⟩ WHITE "white" true 1.0

end

/-- Witness for C6 at a freshly emitted ray in the empty scene. -/
theorem C6_witness :
    GLASS.posIors ∧ (0 : ℝ) ≤ exC6ray.intensity ∧ exC6ray.material.posIors ∧
    (Game.trace exC6env exC6ray).1.intensity ≤ exC6ray.intensity ∧
    (Game.trace_color exC6env exC6ray).1.intensity ≤ exC6ray.intensity :=
  ⟨GLASS_posIors, by norm_num [exC6ray, mkRay], AIR_posIors,
   (C6_intensity_nonincreasing exC6env exC6ray GLASS_posIors
     (by norm_num [exC6ray, mkRay]) AIR_posIors).1,
   (C6_intensity_nonincreasing exC6env exC6ray GLASS_posIors
     (by norm_num [exC6ray, mkRay]) AIR_posIors).2⟩

/-! ### C9 groundwork: every spawned sibling carries `bounces + 1`, the
    parent's bounce count never decreases, and therefore a recursion budget
    of 11 is enough for the child traces to stabilise. -/

theorem spawn_kids_bounces (env : Env) (dirv nv pt : Vec) (ii dd : ℝ) (b : ℕ) :
    ∀ c ∈ (SPECTRUM.filterMap fun sp =>
      (match Physics.refract dirv nv (AIR.get_ior sp.1) (env.glass.get_ior sp.1) with
      | none => none
      | some nd => some ⟨SpawnKind.colorK, false,
          { spawnRay pt nd sp.2.1 sp.1 false ii dd b with material := env.glass }⟩
        : Option SpawnCall)),
      c.ray.bounces = b := by
  intro c hc
  rw [List.mem_filterMap] at hc
  obtain ⟨sp, _, hsp⟩ := hc
  revert hsp
  cases Physics.refract dirv nv (AIR.get_ior sp.1) (env.glass.get_ior sp.1) with
  | none => intro h; cases h
  | some nd =>
    intro h
    cases h
    rfl

theorem mirrorHit_spawns (r1 : Ray) (n : Vec) :
    (∀ c ∈ (mirrorHit r1 n).spawns, r1.bounces < c.ray.bounces) ∧
    r1.bounces ≤ (mirrorHit r1 n).ray.bounces := by
  constructor
  · intro c hc
    cases hc
  · exact Nat.le_succ _

theorem traceNoHit_spawns (r : Ray) :
    (traceNoHit r).spawns = [] ∧ (traceNoHit r).ray.bounces = r.bounces := by
  simp only [traceNoHit]
  repeat' split
  all_goals exact ⟨rfl, rfl⟩

theorem traceRectHit_spawns (env : Env) (r1 : Ray) (pt n itemPos : Vec) :
    (∀ c ∈ (traceRectHit env r1 pt n itemPos).spawns,
      r1.bounces < c.ray.bounces) ∧
    r1.bounces ≤ (traceRectHit env r1 pt n itemPos).ray.bounces := by
  simp only [traceRectHit]
  repeat' split
  all_goals constructor
  all_goals
    first
      | exact le_refl _
      | exact Nat.le_succ _
      | (intro c hc; exact absurd hc (List.not_mem_nil c))
      | (intro c hc
         rw [List.mem_singleton] at hc
         subst hc
         exact Nat.lt_succ_self _)
      | (intro c hc
         rcases List.mem_append.mp hc with h | h
         · rw [List.mem_singleton] at h
           subst h
           exact Nat.lt_succ_self _
         · exact lt_of_lt_of_eq (Nat.lt_succ_self _)
             (spawn_kids_bounces env _ _ _ _ _ _ c h).symm)
      | (intro c hc
         rcases List.mem_append.mp hc with h | h
         · exact absurd h (List.not_mem_nil c)
         · exact lt_of_lt_of_eq (Nat.lt_succ_self _)
             (spawn_kids_bounces env _ _ _ _ _ _ c h).symm)

theorem traceLensHit_spawns (env : Env) (r1 : Ray) (pt n itemPos : Vec) :
    (∀ c ∈ (traceLensHit env r1 pt n itemPos).spawns,
      r1.bounces < c.ray.bounces) ∧
    r1.bounces ≤ (traceLensHit env r1 pt n itemPos).ray.bounces := by
  simp only [traceLensHit]
  repeat' split
  all_goals constructor
  all_goals
    first
      | exact le_refl _
      | exact Nat.le_succ _
      | (intro c hc; exact absurd hc (List.not_mem_nil c))
      | (intro c hc
         rw [List.mem_singleton] at hc
         subst hc
         exact Nat.lt_succ_self _)
      | (intro c hc
         rcases List.mem_append.mp hc with h | h
         · rw [List.mem_singleton] at h
           subst h
           exact Nat.lt_succ_self _
         · exact lt_of_lt_of_eq (Nat.lt_succ_self _)
             (spawn_kids_bounces env _ _ _ _ _ _ c h).symm)
      | (intro c hc
         rcases List.mem_append.mp hc with h | h
         · exact absurd h (List.not_mem_nil c)
         · exact lt_of_lt_of_eq (Nat.lt_succ_self _)
             (spawn_kids_bounces env _ _ _ _ _ _ c h).symm)

theorem colorRectHit_spawns (env : Env) (r1 : Ray) (pt n itemPos : Vec) :
    (∀ c ∈ (colorRectHit env r1 pt n itemPos).spawns,
      r1.bounces < c.ray.bounces) ∧
    r1.bounces ≤ (colorRectHit env r1 pt n itemPos).ray.bounces := by
  simp only [colorRectHit]
  repeat' split
  all_goals constructor
  all_goals
    first
      | exact le_refl _
      | exact Nat.le_succ _
      | (intro c hc; exact absurd hc (List.not_mem_nil c))
      | (intro c hc
         rw [List.mem_singleton] at hc
         subst hc
         exact Nat.lt_succ_self _)

theorem colorLensHit_spawns (env : Env) (r1 : Ray) (pt n itemPos : Vec) :
    (∀ c ∈ (colorLensHit env r1 pt n itemPos).spawns,
      r1.bounces < c.ray.bounces) ∧
    r1.bounces ≤ (colorLensHit env r1 pt n itemPos).ray.bounces := by
  simp only [colorLensHit]
  repeat' split
  all_goals constructor
  all_goals
    first
      | exact le_refl _
      | exact Nat.le_succ _
      | (intro c hc; exact absurd hc (List.not_mem_nil c))
      | (intro c hc
         rw [List.mem_singleton] at hc
         subst hc
         exact Nat.lt_succ_self _)

theorem traceStep_spawns (g : ℝ) (env : Env) (r : Ray) :
    (∀ c ∈ (traceStep g env r).spawns, r.bounces < c.ray.bounces) ∧
    r.bounces ≤ (traceStep g env r).ray.bounces := by
  cases hfind : findHit g r env.items with
  | none =>
    simp only [traceStep, hfind]
    obtain ⟨h1, h2⟩ := traceNoHit_spawns r
    refine ⟨?_, le_of_eq h2.symm⟩
    intro c hc
    rw [h1] at hc
    cases hc
  | some best =>
    simp only [traceStep, hfind]
    split
    · refine ⟨?_, le_refl _⟩
      intro c hc
      exact absurd hc (List.not_mem_nil c)
    · split
      · exact mirrorHit_spawns _ _
      · exact mirrorHit_spawns _ _
      · exact traceRectHit_spawns env _ _ _ _
      · exact traceRectHit_spawns env _ _ _ _
      · exact traceLensHit_spawns env _ _ _ _

theorem colorStep_spawns (g : ℝ) (env : Env) (r : Ray) :
    (∀ c ∈ (colorStep g env r).spawns, r.bounces < c.ray.bounces) ∧
    r.bounces ≤ (colorStep g env r).ray.bounces := by
  cases hfind : findHit g r env.items with
  | none =>
    simp only [colorStep, hfind, colorNoHit]
    obtain ⟨h1, h2⟩ := traceNoHit_spawns r
    refine ⟨?_, le_of_eq h2.symm⟩
    intro c hc
    rw [h1] at hc
    cases hc
  | some best =>
    simp only [colorStep, hfind]
    split
    · exact mirrorHit_spawns _ _
    · exact mirrorHit_spawns _ _
    · exact colorRectHit_spawns env _ _ _ _
    · exact colorRectHit_spawns env _ _ _ _
    · exact colorLensHit_spawns env _ _ _ _

theorem runSpawn_congr (fT fT' fC fC' : Ray → Ray × List Ray) (c : SpawnCall)
    (h1 : fT c.ray = fT' c.ray) (h2 : fC c.ray = fC' c.ray) :
    runSpawn fT fC c = runSpawn fT' fC' c := by
  rw [runSpawn, runSpawn]
  cases c.kind <;> simp only [h1, h2]

/-- The loop body is insensitive to the behaviour of the recursive tracing
    callbacks on rays with a bounce count not exceeding the current one:
    every spawned sibling has a strictly larger bounce count. -/
theorem loopGen_congr (fT fT' fC fC' : Ray → Ray × List Ray)
    (step : Ray → StepOut)
    (hstep : ∀ r, (∀ c ∈ (step r).spawns, r.bounces < c.ray.bounces) ∧
      r.bounces ≤ (step r).ray.bounces) :
    ∀ (s : ℕ) (r : Ray) (acc : List Ray),
      (∀ r', r.bounces < r'.bounces → fT r' = fT' r' ∧ fC r' = fC' r') →
      loopGen fT fC step s r acc = loopGen fT' fC' step s r acc := by
  intro s
  induction s with
  | zero => intro r acc _; rfl
  | succ s ih =>
    intro r acc hagree
    simp only [loopGen]
    by_cases h1 : ¬ r.active = true ∨ 10 ≤ r.bounces
    · rw [if_pos h1, if_pos h1]
    · rw [if_neg h1, if_neg h1]
      by_cases h2 : r.distance_traveled ≥ MAX_RAY_DISTANCE
      · rw [if_pos h2, if_pos h2]
      · rw [if_neg h2, if_neg h2]
        have hmap : (step r).spawns.map (runSpawn fT fC)
            = (step r).spawns.map (runSpawn fT' fC') := by
          apply List.map_congr_left
          intro c hc
          have hb := (hstep r).1 c hc
          exact runSpawn_congr fT fT' fC fC' c (hagree c.ray hb).1 (hagree c.ray hb).2
        rw [hmap]
        by_cases h3 : (step r).cont = true
        · rw [if_pos h3, if_pos h3]
          apply ih
          intro r' hr'
          exact hagree r' (lt_of_le_of_lt (hstep r).2 hr')
        · rw [if_neg h3, if_neg h3]

/-- Stabilisation: once the recursion budget is at least `11 − bounces`,
    its exact value is irrelevant — the recursion through spawned rays
    bottoms out at the bounce cap. -/
theorem auxG_stab (env : Env) (k : ℕ) :
    ∀ r : Ray, 10 ≤ r.bounces + k →
      (∀ (g : ℝ) (b₁ b₂ : ℕ), 11 ≤ b₁ + r.bounces → 11 ≤ b₂ + r.bounces →
        colorAuxG g env b₁ r = colorAuxG g env b₂ r) ∧
      (∀ (g : ℝ) (b₁ b₂ : ℕ), 11 ≤ b₁ + r.bounces → 11 ≤ b₂ + r.bounces →
        traceAuxG g env b₁ r = traceAuxG g env b₂ r) := by
  induction k with
  | zero =>
    intro r hk
    constructor
    · intro g b₁ b₂ _ _
      rw [colorAuxG_bcap g env b₁ r (by omega), colorAuxG_bcap g env b₂ r (by omega)]
    · intro g b₁ b₂ _ _
      rw [traceAuxG_bcap g env b₁ r (by omega), traceAuxG_bcap g env b₂ r (by omega)]
  | succ k ih =>
    intro r hk
    by_cases hb : 10 ≤ r.bounces
    · constructor
      · intro g b₁ b₂ _ _
        rw [colorAuxG_bcap g env b₁ r hb, colorAuxG_bcap g env b₂ r hb]
      · intro g b₁ b₂ _ _
        rw [traceAuxG_bcap g env b₁ r hb, traceAuxG_bcap g env b₂ r hb]
    · push_neg at hb
      constructor
      · intro g b₁ b₂ h1 h2
        obtain ⟨b₁', rfl⟩ : ∃ m, b₁ = m + 1 := ⟨b₁ - 1, by omega⟩
        obtain ⟨b₂', rfl⟩ : ∃ m, b₂ = m + 1 := ⟨b₂ - 1, by omega⟩
        rw [colorAuxG, colorAuxG]
        apply loopGen_congr _ _ _ _ _ (colorStep_spawns g env)
        intro r' hr'
        have hih := ih r' (by omega)
        exact ⟨hih.1 g b₁' b₂' (by omega) (by omega),
               hih.1 g b₁' b₂' (by omega) (by omega)⟩
      · intro g b₁ b₂ h1 h2
        obtain ⟨b₁', rfl⟩ : ∃ m, b₁ = m + 1 := ⟨b₁ - 1, by omega⟩
        obtain ⟨b₂', rfl⟩ : ∃ m, b₂ = m + 1 := ⟨b₂ - 1, by omega⟩
        rw [traceAuxG, traceAuxG]
        apply loopGen_congr _ _ _ _ _ (traceStep_spawns g env)
        intro r' hr'
        have hih := ih r' (by omega)
        exact ⟨hih.2 g b₁' b₂' (by omega) (by omega),
               hih.1 1.0 b₁' b₂' (by omega) (by omega)⟩

/-- **C9**: every call of `Game.trace` / `Game.trace_color` terminates with
    a bounded amount of work: the per-ray loop is capped structurally
    (`range(20)` / `range(10)` steps), and because every spawned sibling
    ray starts with a bounce count strictly greater than its parent's and
    tracing stops at the bounce cap 10, a recursion budget of 11 levels is
    exact — any budget `b ≥ 11` computes the same result as `Game.trace` /
    `Game.trace_color`, for every ray and every (finite) scene, including a
    fully enclosed mirror box. -/
theorem C9_termination (env : Env) (r : Ray) (b : ℕ) (hb : 11 ≤ b) :
    traceAuxG 0.1 env b r = Game.trace env r ∧
    colorAuxG 1.0 env b r = Game.trace_color env r := by
  have h := auxG_stab env 10 r (by omega)
  exact ⟨h.2 0.1 b 11 (by omega) (by omega),
         h.1 1.0 b 11 (by omega) (by omega)⟩

noncomputable section

/-- A concrete scene for the C9 witness: a ray inside an enclosing
    rectangle. -/
def exC9env : Env :=
  ⟨[⟨ItemType.RECTANGLE, ⟨150, 0⟩,
     [⟨100, -50⟩, ⟨200, -50⟩, ⟨200, 50⟩, ⟨100, 50⟩]⟩], GLASS⟩

/-- A freshly emitted white ray for the C9 witness. -/
def exC9ray : Ray := mkRay ⟨0, 0⟩ ⟨1, 0⟩ WHITE "white" true 1.0

end

/-- Witness for C9 with budget 12 at a concrete scene and ray. -/
theorem C9_witness :
    11 ≤ 12 ∧
    traceAuxG 0.1 exC9env 12 exC9ray = Game.trace exC9env exC9ray ∧
    colorAuxG 1.0 exC9env 12 exC9ray = Game.trace_color exC9env exC9ray :=
  ⟨by norm_num,
   (C9_termination exC9env exC9ray 12 (by norm_num)).1,
   (C9_termination exC9env exC9ray 12 (by norm_num)).2⟩

/-! ### C3: the two trace routines are not equivalent modulo the guard -/

theorem sqrt_ten_thousand : Real.sqrt 10000 = 100 := by
  rw [show (10000 : ℝ) = 100 ^ 2 by norm_num,
    Real.sqrt_sq (by norm_num : (0 : ℝ) ≤ 100)]

theorem sqrt_forty_thousand : Real.sqrt 40000 = 200 := by
  rw [show (40000 : ℝ) = 200 ^ 2 by norm_num,
    Real.sqrt_sq (by norm_num : (0 : ℝ) ≤ 200)]

theorem norm_one_zero : (Vec.mk 1 0).normalize = ⟨1, 0⟩ :=
  Vec.normalize_of_length_one _ (by
    rw [Vec.length_mk, show ((1 : ℝ)) ^ 2 + (0 : ℝ) ^ 2 = 1 by norm_num]
    exact Real.sqrt_one)

theorem norm_neg_one_zero : (Vec.mk (-1) 0).normalize = ⟨-1, 0⟩ :=
  Vec.normalize_of_length_one _ (by
    rw [Vec.length_mk, show ((-1 : ℝ)) ^ 2 + (0 : ℝ) ^ 2 = 1 by norm_num]
    exact Real.sqrt_one)

theorem reflect_east_west : Physics.reflect ⟨1, 0⟩ ⟨-1, 0⟩ = ⟨-1, 0⟩ := by
  simp only [Physics.reflect, norm_one_zero, norm_neg_one_zero]
  have h : (Vec.mk 1 0).sub ((Vec.mk (-1) 0).smul
      (2 * (Vec.mk 1 0).dot (Vec.mk (-1) 0))) = ⟨-1, 0⟩ := by
    simp only [Vec.sub, Vec.smul, Vec.dot, Vec.mk.injEq]
    norm_num
  rw [h, norm_neg_one_zero]

noncomputable section

/-- A plane mirror standing vertically at `x = 100` (its shape as produced
    by `Item.update_shape` for a width-100 plane mirror rotated 90°). -/
def exC3item : Item := ⟨ItemType.PLANE_MIRROR, ⟨100, 0⟩, [⟨100, -50⟩, ⟨100, 50⟩]⟩

def exC3env : Env := ⟨[exC3item], GLASS⟩

/-- A red ray heading for the mirror with 5880 of its 6000 travel budget
    already spent. -/
def exC3ray : Ray :=
  { origin := ⟨0, 0⟩
    direction := ⟨1, 0⟩
    color := RED
    wavelength := "red"
    is_white := false
    path := [(0, 0)]
    active := true
    bounces := 0
    material := AIR
    intensity := 1
    distance_traveled := 5880 }

def exC3best : Best := ⟨100, ⟨100, 0⟩, ⟨-1, 0⟩, exC3item⟩

/-- `trace` outcome: hit recorded, then the attenuation check of lines
    1041-1044 terminates the ray. -/
def exC3tfin : Ray :=
  { exC3ray with
      path := [(0, 0), (100, 0)]
      distance_traveled := 5980
      origin := ⟨100, 0⟩
      active := false }

/-- `trace_color` after the same hit: no attenuation check, so the mirror
    reflects the ray. -/
def exC3mid : Ray :=
  { exC3ray with
      path := [(0, 0), (100, 0)]
      distance_traveled := 5980
      origin := ⟨100, 0⟩
      direction := ⟨-1, 0⟩
      bounces := 1 }

/-- `trace_color` final state: the reflected ray finds no further hit and is
    extended to the travel budget. -/
def exC3cfin : Ray :=
  { exC3mid with
      path := [(0, 0), (100, 0), (80, 0)]
      distance_traveled := 7980
      active := false }

end

theorem exC3_segments :
    exC3item.get_segments = [(⟨100, -50⟩, ⟨100, 50⟩), (⟨100, 50⟩, ⟨100, -50⟩)] := by
  rfl

theorem exC3_endpoint : exC3ray.get_endpoint = ⟨120, 0⟩ := by
  simp only [Ray.get_endpoint, exC3ray, MAX_RAY_DISTANCE, Vec.add, Vec.smul,
    Vec.mk.injEq]
  norm_num

theorem exC3_intersect1 :
    Physics.intersect ⟨0, 0⟩ ⟨120, 0⟩ ⟨100, -50⟩ ⟨100, 50⟩ =
      some (⟨100, 0⟩, 100) := by
  simp only [Physics.intersect]
  rw [if_neg (by norm_num), if_pos (by norm_num)]
  simp only [Option.some.injEq, Prod.mk.injEq, Vec.sub, Vec.length_mk,
    Vec.mk.injEq]
  refine ⟨⟨by norm_num, by norm_num⟩, ?_⟩
  rw [show ((0 : ℝ) + ((0 - 100) * (-50 - 50) - (0 - -50) * (100 - 100)) /
      ((0 - 120) * (-50 - 50) - (0 - 0) * (100 - 100)) * (120 - 0) - 0) ^ 2 +
      (0 + ((0 - 100) * (-50 - 50) - (0 - -50) * (100 - 100)) /
      ((0 - 120) * (-50 - 50) - (0 - 0) * (100 - 100)) * (0 - 0) - 0) ^ 2
      = 10000 by norm_num]
  exact sqrt_ten_thousand

theorem exC3_intersect2 :
    Physics.intersect ⟨0, 0⟩ ⟨120, 0⟩ ⟨100, 50⟩ ⟨100, -50⟩ =
      some (⟨100, 0⟩, 100) := by
  simp only [Physics.intersect]
  rw [if_neg (by norm_num), if_pos (by norm_num)]
  simp only [Option.some.injEq, Prod.mk.injEq, Vec.sub, Vec.length_mk,
    Vec.mk.injEq]
  refine ⟨⟨by norm_num, by norm_num⟩, ?_⟩
  rw [show ((0 : ℝ) + ((0 - 100) * (50 - -50) - (0 - 50) * (100 - 100)) /
      ((0 - 120) * (50 - -50) - (0 - 0) * (100 - 100)) * (120 - 0) - 0) ^ 2 +
      (0 + ((0 - 100) * (50 - -50) - (0 - 50) * (100 - 100)) /
      ((0 - 120) * (50 - -50) - (0 - 0) * (100 - 100)) * (0 - 0) - 0) ^ 2
      = 10000 by norm_num]
  exact sqrt_ten_thousand

theorem exC3_normal1 : Physics.normal ⟨100, -50⟩ ⟨100, 50⟩ = ⟨-1, 0⟩ := by
  simp only [Physics.normal]
  rw [show ((100 : ℝ) - 100) * (100 - 100) + (50 - -50) * (50 - -50) = 10000
    by norm_num]
  rw [sqrt_ten_thousand]
  rw [if_pos (by norm_num)]
  simp only [Vec.mk.injEq]
  norm_num

theorem exC3_consider1 :
    considerSeg 1.0 exC3ray exC3item none (⟨100, -50⟩, ⟨100, 50⟩) =
      some exC3best := by
  rw [considerSeg]
  rw [show exC3ray.origin = (⟨0, 0⟩ : Vec) from rfl,
    exC3_endpoint]
  dsimp only
  rw [exC3_intersect1]
  dsimp only
  rw [if_pos (by constructor <;> norm_num)]
  rw [exC3_normal1]
  rw [show ((Vec.mk (-1) 0).dot exC3ray.direction) = -1 by
    simp [Vec.dot, exC3ray]]
  rw [if_neg (by norm_num)]
  rfl

theorem exC3_consider2 :
    considerSeg 1.0 exC3ray exC3item (some exC3best) (⟨100, 50⟩, ⟨100, -50⟩) =
      some exC3best := by
  rw [considerSeg]
  rw [show exC3ray.origin = (⟨0, 0⟩ : Vec) from rfl,
    exC3_endpoint]
  dsimp only
  rw [exC3_intersect2]
  dsimp only
  rw [if_neg (by
    intro h
    have := h.2
    dsimp [exC3best] at this
    norm_num at this)]

theorem exC3_find : findHit 1.0 exC3ray exC3env.items = some exC3best := by
  rw [findHit]
  rw [show exC3env.items = [exC3item] from rfl]
  rw [List.foldl_cons, List.foldl_nil]
  rw [exC3_segments]
  rw [List.foldl_cons, List.foldl_cons, List.foldl_nil]
  rw [exC3_consider1, exC3_consider2]

/-- One non-terminating loop iteration of the generic loop skeleton. -/
theorem loopGen_step (fT fC : Ray → Ray × List Ray) (step : Ray → StepOut)
    (s : ℕ) (r : Ray) (acc : List Ray)
    (h1 : ¬ (¬ r.active = true ∨ 10 ≤ r.bounces))
    (h2 : ¬ r.distance_traveled ≥ MAX_RAY_DISTANCE) :
    loopGen fT fC step (s + 1) r acc =
      if (step r).cont = true then
        loopGen fT fC step s (step r).ray
          (acc ++ ((step r).spawns.map (runSpawn fT fC)).flatten)
      else ((step r).ray, acc ++ ((step r).spawns.map (runSpawn fT fC)).flatten) := by
  rw [loopGen, if_neg h1, if_neg h2]

theorem exC3_tracestep : traceStep 1.0 exC3env exC3ray = ⟨exC3tfin, [], false⟩ := by
  simp only [traceStep, exC3_find]
  rw [if_pos (by
    simp only [Game.get_intensity_at_distance, exC3ray, exC3best,
      MAX_RAY_DISTANCE]
    norm_num)]
  simp only [exC3ray, exC3best, exC3tfin, StepOut.mk.injEq, Ray.mk.injEq]
  norm_num

theorem exC3_colorstep1 :
    colorStep 1.0 exC3env exC3ray = ⟨exC3mid, [], true⟩ := by
  simp only [colorStep, exC3_find]
  rw [show exC3best.item.type = ItemType.PLANE_MIRROR from rfl]
  simp only [mirrorHit]
  rw [show Physics.reflect
      ({ exC3ray with
          path := exC3ray.path ++ [(exC3best.pt.x, exC3best.pt.y)]
          distance_traveled := exC3ray.distance_traveled + exC3best.dist
          origin := exC3best.pt } : Ray).direction exC3best.n = ⟨-1, 0⟩ from
    reflect_east_west]
  simp only [exC3ray, exC3best, exC3mid, StepOut.mk.injEq, Ray.mk.injEq]
  norm_num

theorem exC3_mid_endpoint : exC3mid.get_endpoint = ⟨80, 0⟩ := by
  simp only [Ray.get_endpoint, exC3mid, exC3ray, MAX_RAY_DISTANCE, Vec.add,
    Vec.smul, Vec.mk.injEq]
  norm_num

theorem exC3_intersect3 :
    Physics.intersect ⟨100, 0⟩ ⟨80, 0⟩ ⟨100, -50⟩ ⟨100, 50⟩ =
      some (⟨100, 0⟩, 0) := by
  simp only [Physics.intersect]
  rw [if_neg (by norm_num), if_pos (by norm_num)]
  simp only [Option.some.injEq, Prod.mk.injEq, Vec.sub, Vec.length_mk,
    Vec.mk.injEq]
  refine ⟨⟨by norm_num, by norm_num⟩, ?_⟩
  rw [show ((100 : ℝ) + ((100 - 100) * (-50 - 50) - (0 - -50) * (100 - 100)) /
      ((100 - 80) * (-50 - 50) - (0 - 0) * (100 - 100)) * (80 - 100) - 100) ^ 2 +
      (0 + ((100 - 100) * (-50 - 50) - (0 - -50) * (100 - 100)) /
      ((100 - 80) * (-50 - 50) - (0 - 0) * (100 - 100)) * (0 - 0) - 0) ^ 2
      = 0 by norm_num]
  exact Real.sqrt_zero

theorem exC3_intersect4 :
    Physics.intersect ⟨100, 0⟩ ⟨80, 0⟩ ⟨100, 50⟩ ⟨100, -50⟩ =
      some (⟨100, 0⟩, 0) := by
  simp only [Physics.intersect]
  rw [if_neg (by norm_num), if_pos (by norm_num)]
  simp only [Option.some.injEq, Prod.mk.injEq, Vec.sub, Vec.length_mk,
    Vec.mk.injEq]
  refine ⟨⟨by norm_num, by norm_num⟩, ?_⟩
  rw [show ((100 : ℝ) + ((100 - 100) * (50 - -50) - (0 - 50) * (100 - 100)) /
      ((100 - 80) * (50 - -50) - (0 - 0) * (100 - 100)) * (80 - 100) - 100) ^ 2 +
      (0 + ((100 - 100) * (50 - -50) - (0 - 50) * (100 - 100)) /
      ((100 - 80) * (50 - -50) - (0 - 0) * (100 - 100)) * (0 - 0) - 0) ^ 2
      = 0 by norm_num]
  exact Real.sqrt_zero

theorem exC3_find2 : findHit 1.0 exC3mid exC3env.items = none := by
  rw [findHit]
  rw [show exC3env.items = [exC3item] from rfl]
  rw [List.foldl_cons, List.foldl_nil]
  rw [exC3_segments]
  rw [List.foldl_cons, List.foldl_cons, List.foldl_nil]
  have hc1 : considerSeg 1.0 exC3mid exC3item none (⟨100, -50⟩, ⟨100, 50⟩) =
      none := by
    rw [considerSeg]
    rw [show exC3mid.origin = (⟨100, 0⟩ : Vec) from rfl, exC3_mid_endpoint]
    dsimp only
    rw [exC3_intersect3]
    dsimp only
    rw [if_neg (by intro h; have := h.1; norm_num at this)]
  have hc2 : considerSeg 1.0 exC3mid exC3item none (⟨100, 50⟩, ⟨100, -50⟩) =
      none := by
    rw [considerSeg]
    rw [show exC3mid.origin = (⟨100, 0⟩ : Vec) from rfl, exC3_mid_endpoint]
    dsimp only
    rw [exC3_intersect4]
    dsimp only
    rw [if_neg (by intro h; have := h.1; norm_num at this)]
  rw [hc1, hc2]

theorem exC3_colorstep2 :
    colorStep 1.0 exC3env exC3mid = ⟨exC3cfin, [], false⟩ := by
  simp only [colorStep, exC3_find2, colorNoHit, traceNoHit]
  rw [if_pos (by
    simp only [exC3mid, exC3ray, MAX_RAY_DISTANCE]
    norm_num)]
  rw [if_pos (by
    simp only [exC3mid, exC3ray, MAX_RAY_DISTANCE]
    norm_num)]
  simp only [exC3mid, exC3ray, exC3cfin, StepOut.mk.injEq, Ray.mk.injEq,
    Vec.add, Vec.smul, Vec.mk.injEq, Prod.mk.injEq, MAX_RAY_DISTANCE]
  norm_num

theorem exC3_traceeval : traceAuxG 1.0 exC3env 11 exC3ray = (exC3tfin, []) := by
  rw [show (11 : ℕ) = 10 + 1 from rfl, traceAuxG]
  rw [show (20 : ℕ) = 19 + 1 from rfl]
  rw [loopGen_step _ _ _ _ _ _
    (by simp [exC3ray]) (by simp [exC3ray, MAX_RAY_DISTANCE]; norm_num)]
  rw [exC3_tracestep]
  simp

theorem exC3_coloreval : colorAuxG 1.0 exC3env 11 exC3ray = (exC3cfin, []) := by
  rw [show (11 : ℕ) = 10 + 1 from rfl, colorAuxG]
  rw [show (10 : ℕ) = 9 + 1 from rfl]
  rw [loopGen_step _ _ _ _ _ _
    (by simp [exC3ray]) (by simp [exC3ray, MAX_RAY_DISTANCE]; norm_num)]
  rw [exC3_colorstep1]
  simp only []
  rw [if_pos trivial]
  rw [show (9 : ℕ) = 8 + 1 from rfl]
  rw [loopGen_step _ _ _ _ _ _
    (by simp [exC3mid, exC3ray]) (by simp [exC3mid, exC3ray, MAX_RAY_DISTANCE]; norm_num)]
  rw [exC3_colorstep2]
  simp

/-- **C3** counterexample: with the *same* guard value (1.0) on both
    routines, `trace` and `trace_color` disagree on the same scene and ray —
    `trace`'s attenuation-based termination check (absent from
    `trace_color`) stops the ray at the mirror, while `trace_color` reflects
    it and extends it further, yielding different paths, bounce counts and
    different termination behaviour. -/
theorem C3_counterexample :
    (traceAuxG 1.0 exC3env 11 exC3ray).1.path.length = 2 ∧
    (colorAuxG 1.0 exC3env 11 exC3ray).1.path.length = 3 ∧
    (colorAuxG 1.0 exC3env 11 exC3ray).1.bounces = 1 ∧
    (traceAuxG 1.0 exC3env 11 exC3ray).1.bounces = 0 ∧
    traceAuxG 1.0 exC3env 11 exC3ray ≠ colorAuxG 1.0 exC3env 11 exC3ray := by
  rw [exC3_traceeval, exC3_coloreval]
  refine ⟨rfl, rfl, rfl, rfl, ?_⟩
  intro h
  have := congrArg (fun p => p.1.path.length) h
  simp [exC3tfin, exC3cfin, exC3mid, exC3ray] at this

/-- **C3** (amended): the two trace entry points do *not* implement
    identical physics modulo the guard — they differ in step cap (20 vs
    10), in the attenuation-based termination check after a hit (present
    only in `trace`), in white-light spectral splitting (only in `trace`),
    and in the sibling-spawn thresholds (`intensity·R > 0.01` vs
    `R > 0.01`).  They do agree (returning the ray unchanged with no
    spawns) on every ray that is already inactive or has reached the
    bounce cap, for every guard and scene. -/
theorem C3_amended (g : ℝ) (env : Env) (r : Ray)
    (h : ¬ r.active = true ∨ 10 ≤ r.bounces) :
    traceAuxG g env 11 r = colorAuxG g env 11 r := by
  rcases h with h | h
  · rw [traceAuxG_inactive _ _ _ _ h, colorAuxG_inactive _ _ _ _ h]
  · rw [traceAuxG_bcap _ _ _ _ h, colorAuxG_bcap _ _ _ _ h]

noncomputable section

/-- An inactive ray for the C3 witness. -/
def exC3stop : Ray := { exC3ray with active := false }

end

/-- Witness for the amended C3 at a concrete inactive ray. -/
theorem C3_witness :
    (¬ exC3stop.active = true ∨ 10 ≤ exC3stop.bounces) ∧
    traceAuxG 1.0 exC3env 11 exC3stop = colorAuxG 1.0 exC3env 11 exC3stop :=
  ⟨Or.inl (by simp [exC3stop]),
   C3_amended 1.0 exC3env exC3stop (Or.inl (by simp [exC3stop]))⟩

/-! ### C4: sibling-spawn thresholds ignore intensity outside
    `trace`'s triangle/rectangle branch -/

noncomputable section

/-- An axis-aligned 100×100 rectangle dielectric centred at (150, 0) (the
    shape `Item.update_shape` produces for `RECTANGLE`, w = h = 100,
    rotation 0). -/
def exC4item : Item :=
  ⟨ItemType.RECTANGLE, ⟨150, 0⟩,
   [⟨100, -50⟩, ⟨200, -50⟩, ⟨200, 50⟩, ⟨100, 50⟩]⟩

def exC4env : Env := ⟨[exC4item], GLASS⟩

/-- A dim red ray (intensity 0.1) at bounce count 9 heading for the
    rectangle's left face. -/
def exC4ray : Ray :=
  { origin := ⟨0, 0⟩
    direction := ⟨1, 0⟩
    color := RED
    wavelength := "red"
    is_white := false
    path := [(0, 0)]
    active := true
    bounces := 9
    material := AIR
    intensity := 1 / 10
    distance_traveled := 0 }

def exC4best : Best := ⟨100, ⟨100, 0⟩, ⟨-1, 0⟩, exC4item⟩

/-- The ray state after the hit bookkeeping of lines 1204-1207. -/
def exC4r1 : Ray :=
  { exC4ray with
      path := [(0, 0), (100, 0)]
      distance_traveled := 100
      origin := ⟨100, 0⟩ }

/-- The sibling reflected ray the code spawns at the left face: intensity
    `0.1 · R = 0.1 · (1/25) = 1/250 ≤ 0.01`. -/
def exC4sib : Ray :=
  { origin := ⟨100, 0⟩
    direction := ⟨-1, 0⟩
    color := RED
    wavelength := "red"
    is_white := false
    path := [(100, 0)]
    active := true
    bounces := 10
    material := AIR
    intensity := 1 / 250
    distance_traveled := 100 }

/-- The parent after refracting into the glass. -/
def exC4out : Ray :=
  { exC4r1 with
      direction := ⟨1, 0⟩
      intensity := 12 / 125
      material := GLASS
      bounces := 10 }

end

theorem exC4_fres :
    Physics.fresnel_reflectance ⟨1, 0⟩ ⟨-1, 0⟩ (AIR.get_ior "red")
      (GLASS.get_ior "red") = 1 / 25 := by
  rw [show AIR.get_ior "red" = 1.000 from rfl,
    show GLASS.get_ior "red" = 1.500 from rfl]
  simp only [Physics.fresnel_reflectance, norm_one_zero, norm_neg_one_zero]
  rw [show ((Vec.mk (-1) 0).dot (Vec.mk 1 0)) = -1 by
    simp only [Vec.dot]; norm_num]
  rw [if_neg (by norm_num)]
  norm_num

theorem exC4_refr :
    Physics.refract ⟨1, 0⟩ ⟨-1, 0⟩ (AIR.get_ior "red") (GLASS.get_ior "red") =
      some ⟨1, 0⟩ := by
  apply refract_head_on
  · rw [Vec.length_mk, show ((1 : ℝ)) ^ 2 + (0 : ℝ) ^ 2 = 1 by norm_num]
    exact Real.sqrt_one
  · simp only [Vec.neg, Vec.mk.injEq]
    norm_num

theorem exC4_endpoint : exC4ray.get_endpoint = ⟨2000, 0⟩ := by
  simp only [Ray.get_endpoint, exC4ray, MAX_RAY_DISTANCE, Vec.add, Vec.smul,
    Vec.mk.injEq]
  norm_num

theorem exC4_intersect_bot :
    Physics.intersect ⟨0, 0⟩ ⟨2000, 0⟩ ⟨100, -50⟩ ⟨200, -50⟩ = none := by
  simp only [Physics.intersect]
  rw [if_pos (by norm_num)]

theorem exC4_intersect_top :
    Physics.intersect ⟨0, 0⟩ ⟨2000, 0⟩ ⟨200, 50⟩ ⟨100, 50⟩ = none := by
  simp only [Physics.intersect]
  rw [if_pos (by norm_num)]

theorem exC4_intersect_right :
    Physics.intersect ⟨0, 0⟩ ⟨2000, 0⟩ ⟨200, -50⟩ ⟨200, 50⟩ =
      some (⟨200, 0⟩, 200) := by
  simp only [Physics.intersect]
  rw [if_neg (by norm_num), if_pos (by norm_num)]
  simp only [Option.some.injEq, Prod.mk.injEq, Vec.sub, Vec.length_mk,
    Vec.mk.injEq]
  refine ⟨⟨by norm_num, by norm_num⟩, ?_⟩
  rw [show ((0 : ℝ) + ((0 - 200) * (-50 - 50) - (0 - -50) * (200 - 200)) /
      ((0 - 2000) * (-50 - 50) - (0 - 0) * (200 - 200)) * (2000 - 0) - 0) ^ 2 +
      (0 + ((0 - 200) * (-50 - 50) - (0 - -50) * (200 - 200)) /
      ((0 - 2000) * (-50 - 50) - (0 - 0) * (200 - 200)) * (0 - 0) - 0) ^ 2
      = 40000 by norm_num]
  exact sqrt_forty_thousand

theorem exC4_intersect_left :
    Physics.intersect ⟨0, 0⟩ ⟨2000, 0⟩ ⟨100, 50⟩ ⟨100, -50⟩ =
      some (⟨100, 0⟩, 100) := by
  simp only [Physics.intersect]
  rw [if_neg (by norm_num), if_pos (by norm_num)]
  simp only [Option.some.injEq, Prod.mk.injEq, Vec.sub, Vec.length_mk,
    Vec.mk.injEq]
  refine ⟨⟨by norm_num, by norm_num⟩, ?_⟩
  rw [show ((0 : ℝ) + ((0 - 100) * (50 - -50) - (0 - 50) * (100 - 100)) /
      ((0 - 2000) * (50 - -50) - (0 - 0) * (100 - 100)) * (2000 - 0) - 0) ^ 2 +
      (0 + ((0 - 100) * (50 - -50) - (0 - 50) * (100 - 100)) /
      ((0 - 2000) * (50 - -50) - (0 - 0) * (100 - 100)) * (0 - 0) - 0) ^ 2
      = 10000 by norm_num]
  exact sqrt_ten_thousand

theorem exC4_normal_right : Physics.normal ⟨200, -50⟩ ⟨200, 50⟩ = ⟨-1, 0⟩ := by
  simp only [Physics.normal]
  rw [show ((200 : ℝ) - 200) * (200 - 200) + (50 - -50) * (50 - -50) = 10000
    by norm_num]
  rw [sqrt_ten_thousand]
  rw [if_pos (by norm_num)]
  simp only [Vec.mk.injEq]
  norm_num

theorem exC4_normal_left : Physics.normal ⟨100, 50⟩ ⟨100, -50⟩ = ⟨1, 0⟩ := by
  simp only [Physics.normal]
  rw [show ((100 : ℝ) - 100) * (100 - 100) + (-50 - 50) * (-50 - 50) = 10000
    by norm_num]
  rw [sqrt_ten_thousand]
  rw [if_pos (by norm_num)]
  simp only [Vec.mk.injEq]
  norm_num

theorem exC4_segments :
    exC4item.get_segments =
      [(⟨100, -50⟩, ⟨200, -50⟩), (⟨200, -50⟩, ⟨200, 50⟩),
       (⟨200, 50⟩, ⟨100, 50⟩), (⟨100, 50⟩, ⟨100, -50⟩)] := by
  rfl

noncomputable section

def exC4best1 : Best := ⟨200, ⟨200, 0⟩, ⟨-1, 0⟩, exC4item⟩

end

theorem exC4_consider0 :
    considerSeg 1.0 exC4ray exC4item none (⟨100, -50⟩, ⟨200, -50⟩) = none := by
  rw [considerSeg]
  rw [show exC4ray.origin = (⟨0, 0⟩ : Vec) from rfl, exC4_endpoint]
  dsimp only
  rw [exC4_intersect_bot]

theorem exC4_consider1 :
    considerSeg 1.0 exC4ray exC4item none (⟨200, -50⟩, ⟨200, 50⟩) =
      some exC4best1 := by
  rw [considerSeg]
  rw [show exC4ray.origin = (⟨0, 0⟩ : Vec) from rfl, exC4_endpoint]
  dsimp only
  rw [exC4_intersect_right]
  dsimp only
  rw [if_pos (by constructor <;> norm_num)]
  rw [exC4_normal_right]
  rw [show ((Vec.mk (-1) 0).dot exC4ray.direction) = -1 by
    simp [Vec.dot, exC4ray]]
  rw [if_neg (by norm_num)]
  rfl

theorem exC4_consider2 :
    considerSeg 1.0 exC4ray exC4item (some exC4best1) (⟨200, 50⟩, ⟨100, 50⟩) =
      some exC4best1 := by
  rw [considerSeg]
  rw [show exC4ray.origin = (⟨0, 0⟩ : Vec) from rfl, exC4_endpoint]
  dsimp only
  rw [exC4_intersect_top]

theorem exC4_consider3 :
    considerSeg 1.0 exC4ray exC4item (some exC4best1) (⟨100, 50⟩, ⟨100, -50⟩) =
      some exC4best := by
  rw [considerSeg]
  rw [show exC4ray.origin = (⟨0, 0⟩ : Vec) from rfl, exC4_endpoint]
  dsimp only
  rw [exC4_intersect_left]
  dsimp only
  rw [if_pos (by
    refine ⟨by norm_num, ?_⟩
    show (100 : ℝ) < exC4best1.dist
    rw [show exC4best1.dist = 200 from rfl]
    norm_num)]
  rw [exC4_normal_left]
  rw [show ((Vec.mk 1 0).dot exC4ray.direction) = 1 by
    simp [Vec.dot, exC4ray]]
  rw [if_pos (by norm_num)]
  simp only [Vec.neg, Option.some.injEq, exC4best, Best.mk.injEq, Vec.mk.injEq]
  norm_num

theorem exC4_find : findHit 1.0 exC4ray exC4env.items = some exC4best := by
  rw [findHit]
  rw [show exC4env.items = [exC4item] from rfl]
  rw [List.foldl_cons, List.foldl_nil]
  rw [exC4_segments]
  rw [List.foldl_cons, List.foldl_cons, List.foldl_cons, List.foldl_cons,
    List.foldl_nil]
  rw [exC4_consider0, exC4_consider1, exC4_consider2, exC4_consider3]

theorem exC4_rect :
    colorRectHit exC4env exC4r1 ⟨100, 0⟩ ⟨-1, 0⟩ ⟨150, 0⟩ =
      ⟨exC4out, [⟨SpawnKind.colorK, true, exC4sib⟩], true⟩ := by
  simp only [colorRectHit]
  rw [show ((Vec.mk (-1) 0).dot ((Vec.mk 150 0).sub ⟨100, 0⟩)) = -50 by
    simp only [Vec.dot, Vec.sub]; norm_num]
  rw [show exC4r1.material = AIR from rfl,
    show exC4r1.wavelength = "red" from rfl,
    show exC4env.glass = GLASS from rfl,
    show exC4r1.direction = (⟨1, 0⟩ : Vec) from rfl]
  rw [if_pos (by norm_num : (-50 : ℝ) < 0)]
  rw [exC4_fres]
  rw [if_pos (by norm_num : (1 : ℝ) / 25 > 0.01)]
  rw [if_pos (by norm_num : (1.0 : ℝ) - 1 / 25 > 0.01)]
  rw [exC4_refr]
  rw [reflect_east_west]
  dsimp only
  rw [if_pos (⟨rfl, by norm_num⟩ : AIR = AIR ∧ (-50 : ℝ) < 0)]
  simp only [exC4r1, exC4ray, exC4out, exC4sib, spawnRay, mkRay,
    norm_neg_one_zero, StepOut.mk.injEq, Ray.mk.injEq, List.cons.injEq,
    Prod.mk.injEq, and_true, true_and]
  norm_num [GLASS]
  decide

theorem exC4_colorstep :
    colorStep 1.0 exC4env exC4ray =
      ⟨exC4out, [⟨SpawnKind.colorK, true, exC4sib⟩], true⟩ := by
  simp only [colorStep, exC4_find]
  rw [show ({ exC4ray with
      path := exC4ray.path ++ [(exC4best.pt.x, exC4best.pt.y)]
      distance_traveled := exC4ray.distance_traveled + exC4best.dist
      origin := exC4best.pt } : Ray) = exC4r1 from by
    simp only [exC4ray, exC4best, exC4r1, Ray.mk.injEq]
    try norm_num]
  rw [show exC4best.item.type = ItemType.RECTANGLE from rfl]
  rw [show exC4best.pt = (⟨100, 0⟩ : Vec) from rfl,
    show exC4best.n = (⟨-1, 0⟩ : Vec) from rfl,
    show exC4best.item.pos = (⟨150, 0⟩ : Vec) from rfl]
  exact exC4_rect

theorem exC4_coloreval :
    colorAuxG 1.0 exC4env 11 exC4ray = (exC4out, [exC4sib]) := by
  rw [show (11 : ℕ) = 10 + 1 from rfl, colorAuxG]
  rw [show (10 : ℕ) = 9 + 1 from rfl]
  rw [loopGen_step _ _ _ _ _ _
    (by simp [exC4ray]) (by simp [exC4ray, MAX_RAY_DISTANCE]; try norm_num)]
  rw [exC4_colorstep]
  simp only []
  rw [if_pos trivial]
  rw [loopGen_stop _ _ _ _ _ _ (Or.inr (by norm_num [exC4out, exC4r1, exC4ray]))]
  simp only [List.map_cons, List.map_nil, runSpawn]
  rw [colorAuxG_bcap 1.0 exC4env (9 + 1) exC4sib (by norm_num [exC4sib])]
  simp

/-- **C4** counterexample: at a dielectric boundary hit in `trace_color`
    (rectangle branch, lines 1221-1227), a sibling reflected ray *is*
    spawned even though `intensity·R = 0.1 · (1/25) = 1/250 ≤ 0.01`: the
    spawn condition there is `R > 0.01` alone, ignoring the incident
    intensity. -/
theorem C4_counterexample :
    (Game.trace_color exC4env exC4ray).2 = [exC4sib] ∧
    Physics.fresnel_reflectance exC4ray.direction ⟨-1, 0⟩ (AIR.get_ior "red")
      (GLASS.get_ior "red") = 1 / 25 ∧
    exC4sib.intensity = exC4ray.intensity * (1 / 25) ∧
    ¬ (exC4ray.intensity * (1 / 25) > 0.01) := by
  refine ⟨?_, ?_, ?_, ?_⟩
  · rw [Game.trace_color, exC4_coloreval]
  · rw [show exC4ray.direction = (⟨1, 0⟩ : Vec) from rfl]
    exact exC4_fres
  · rw [show exC4sib.intensity = 1 / 250 from rfl,
      show exC4ray.intensity = 1 / 10 from rfl]
    norm_num
  · rw [show exC4ray.intensity = 1 / 10 from rfl]
    norm_num

/-- **C4** (amended): the spawn threshold for the sibling reflected ray
    depends on the branch.  In `trace_color` (and likewise in the lens
    branches of `trace`) the sibling is spawned iff `R > 0.01` alone —
    the incident intensity is *not* consulted — while `trace`'s
    triangle/rectangle branch spawns iff `R > 0.01 ∧ intensity·R > 0.01`.
    In all branches the sibling carries intensity `intensity·R`, the
    (normalized) reflected direction, the parent's wavelength, origin at
    the hit point, `bounces = parent + 1` and `traveled = parent
    traveled`. -/
theorem C4_amended (env : Env) (r1 : Ray) (pt n itemPos : Vec)
    (hw : r1.is_white = false) (R : ℝ)
    (hR : R = Physics.fresnel_reflectance r1.direction n
      (r1.material.get_ior r1.wavelength)
      (if n.dot (itemPos.sub pt) < 0 then env.glass.get_ior r1.wavelength
       else AIR.get_ior r1.wavelength)) :
    ((colorRectHit env r1 pt n itemPos).spawns ≠ [] ↔ R > 0.01) ∧
    ((traceRectHit env r1 pt n itemPos).spawns ≠ [] ↔
      R > 0.01 ∧ r1.intensity * R > 0.01) ∧
    (∀ c ∈ (colorRectHit env r1 pt n itemPos).spawns,
      c.ray.intensity = r1.intensity * R ∧
      c.ray.origin = pt ∧
      c.ray.direction = (Physics.reflect r1.direction n).normalize ∧
      c.ray.wavelength = r1.wavelength ∧
      c.ray.bounces = r1.bounces + 1 ∧
      c.ray.distance_traveled = r1.distance_traveled) := by
  subst hR
  have hcolor : (colorRectHit env r1 pt n itemPos).spawns =
      if Physics.fresnel_reflectance r1.direction n
          (r1.material.get_ior r1.wavelength)
          (if n.dot (itemPos.sub pt) < 0 then env.glass.get_ior r1.wavelength
           else AIR.get_ior r1.wavelength) > 0.01 then
        [⟨SpawnKind.colorK, true,
          spawnRay pt (Physics.reflect r1.direction n) r1.color r1.wavelength
            false (r1.intensity * Physics.fresnel_reflectance r1.direction n
              (r1.material.get_ior r1.wavelength)
              (if n.dot (itemPos.sub pt) < 0 then env.glass.get_ior r1.wavelength
               else AIR.get_ior r1.wavelength))
            r1.distance_traveled (r1.bounces + 1)⟩]
      else [] := by
    by_cases hRc : Physics.fresnel_reflectance r1.direction n
        (r1.material.get_ior r1.wavelength)
        (if n.dot (itemPos.sub pt) < 0 then env.glass.get_ior r1.wavelength
         else AIR.get_ior r1.wavelength) > 0.01
    · simp only [colorRectHit, if_pos hRc]
      repeat' split
      all_goals rfl
    · simp only [colorRectHit, if_neg hRc]
      repeat' split
      all_goals rfl
  have htrace : (traceRectHit env r1 pt n itemPos).spawns =
      if Physics.fresnel_reflectance r1.direction n
            (r1.material.get_ior r1.wavelength)
            (if n.dot (itemPos.sub pt) < 0 then env.glass.get_ior r1.wavelength
             else AIR.get_ior r1.wavelength) > 0.01 ∧
          r1.intensity * Physics.fresnel_reflectance r1.direction n
            (r1.material.get_ior r1.wavelength)
            (if n.dot (itemPos.sub pt) < 0 then env.glass.get_ior r1.wavelength
             else AIR.get_ior r1.wavelength) > 0.01 then
        [⟨SpawnKind.traceK, true,
          spawnRay pt (Physics.reflect r1.direction n) r1.color r1.wavelength
            false (r1.intensity * Physics.fresnel_reflectance r1.direction n
              (r1.material.get_ior r1.wavelength)
              (if n.dot (itemPos.sub pt) < 0 then env.glass.get_ior r1.wavelength
               else AIR.get_ior r1.wavelength))
            r1.distance_traveled (r1.bounces + 1)⟩]
      else [] := by
    by_cases hRc : Physics.fresnel_reflectance r1.direction n
          (r1.material.get_ior r1.wavelength)
          (if n.dot (itemPos.sub pt) < 0 then env.glass.get_ior r1.wavelength
           else AIR.get_ior r1.wavelength) > 0.01 ∧
        r1.intensity * Physics.fresnel_reflectance r1.direction n
          (r1.material.get_ior r1.wavelength)
          (if n.dot (itemPos.sub pt) < 0 then env.glass.get_ior r1.wavelength
           else AIR.get_ior r1.wavelength) > 0.01
    · simp only [traceRectHit, hw, Bool.false_eq_true, false_and, if_false,
        if_pos hRc]
      repeat' split
      all_goals rfl
    · simp only [traceRectHit, hw, Bool.false_eq_true, false_and, if_false,
        if_neg hRc]
      repeat' split
      all_goals rfl
  refine ⟨?_, ?_, ?_⟩
  · rw [hcolor]
    by_cases hRc : Physics.fresnel_reflectance r1.direction n
        (r1.material.get_ior r1.wavelength)
        (if n.dot (itemPos.sub pt) < 0 then env.glass.get_ior r1.wavelength
         else AIR.get_ior r1.wavelength) > 0.01
    · rw [if_pos hRc]
      exact iff_of_true (by simp) hRc
    · rw [if_neg hRc]
      exact iff_of_false (by simp) hRc
  · rw [htrace]
    by_cases hRc : Physics.fresnel_reflectance r1.direction n
          (r1.material.get_ior r1.wavelength)
          (if n.dot (itemPos.sub pt) < 0 then env.glass.get_ior r1.wavelength
           else AIR.get_ior r1.wavelength) > 0.01 ∧
        r1.intensity * Physics.fresnel_reflectance r1.direction n
          (r1.material.get_ior r1.wavelength)
          (if n.dot (itemPos.sub pt) < 0 then env.glass.get_ior r1.wavelength
           else AIR.get_ior r1.wavelength) > 0.01
    · rw [if_pos hRc]
      exact iff_of_true (by simp) hRc
    · rw [if_neg hRc]
      exact iff_of_false (by simp) hRc
  · intro c hc
    rw [hcolor] at hc
    by_cases hRc : Physics.fresnel_reflectance r1.direction n
        (r1.material.get_ior r1.wavelength)
        (if n.dot (itemPos.sub pt) < 0 then env.glass.get_ior r1.wavelength
         else AIR.get_ior r1.wavelength) > 0.01
    · rw [if_pos hRc] at hc
      rw [List.mem_singleton] at hc
      subst hc
      exact ⟨rfl, rfl, rfl, rfl, rfl, rfl⟩
    · rw [if_neg hRc] at hc
      exact absurd hc (List.not_mem_nil c)

/-- Witness for the amended C4: the concrete dim red ray at the rectangle's
    left face — `R = 1/25 > 0.01`, so `trace_color` spawns the sibling even
    though `intensity·R = 1/250 ≤ 0.01`. -/
theorem C4_witness :
    exC4ray.is_white = false ∧
    (colorRectHit exC4env exC4ray ⟨100, 0⟩ ⟨-1, 0⟩ ⟨150, 0⟩).spawns ≠ [] := by
  refine ⟨rfl, ?_⟩
  apply (C4_amended exC4env exC4ray ⟨100, 0⟩ ⟨-1, 0⟩ ⟨150, 0⟩ rfl _ rfl).1.mpr
  rw [show exC4ray.direction = (⟨1, 0⟩ : Vec) from rfl,
    show exC4ray.material = AIR from rfl,
    show exC4ray.wavelength = "red" from rfl,
    show exC4env.glass = GLASS from rfl]
  rw [if_pos (by
    rw [show ((Vec.mk (-1) 0).dot ((Vec.mk 150 0).sub ⟨100, 0⟩)) = -50 by
      simp only [Vec.dot, Vec.sub]; norm_num]
    norm_num)]
  rw [exC4_fres]
  norm_num

end Claims
